import Mathlib

/-!
Verification development for the CLAN log decoder (`log_parser.py`).

The Python source is shallowly embedded here: strings become `List Char`,
Python `datetime` values become milliseconds-since-epoch integers, Python
floats parsed from decimal text become rationals, and the per-call mutable
`log_data` dictionary becomes the `LogData` structure threaded through a
pure per-line step function.  `datetime.now()` is made explicit as a `now`
parameter so that the wall-clock fallback of `parse_timestamp` is visible.
-/

set_option maxRecDepth 100000

namespace Clan

abbrev Str := List Char

/-- Python `str.isspace` characters relevant here (`\s` of `re`). -/
def isWsChar (c : Char) : Bool :=
  c = ' ' || c = '\t' || c = '\n' || c = '\r' || c = '\x0b' || c = '\x0c'

def isDigitChar (c : Char) : Bool :=
  '0' ≤ c && c ≤ '9'

/-- `\w` of `re` (ASCII fragment). -/
def isWordChar (c : Char) : Bool :=
  isDigitChar c || ('a' ≤ c && c ≤ 'z') || ('A' ≤ c && c ≤ 'Z') || c = '_'

/-- Characters of the regex class `[\d.]`. -/
def isDigitDot (c : Char) : Bool := isDigitChar c || c = '.'

/-- Characters of the regex class `[\d., ]` (used for load averages). -/
def isLoadChar (c : Char) : Bool := isDigitChar c || c = '.' || c = ',' || c = ' '

/-- Python `str.lstrip()`. -/
def lstrip (s : Str) : Str := s.dropWhile isWsChar

/-- Python `str.rstrip()`. -/
def rstrip : Str → Str
  | [] => []
  | c :: t =>
    let r := rstrip t
    if r = [] && isWsChar c then [] else c :: r

/-- Python `str.strip()`. -/
def strip (s : Str) : Str := rstrip (lstrip s)

/-- Python `str.lower()` (ASCII). -/
def lower (s : Str) : Str := s.map Char.toLower

/-- Python `str.upper()` (ASCII). -/
def upper (s : Str) : Str := s.map Char.toUpper

/-- List prefix test, analysing the pattern first so that it reduces even
when the subject has a symbolic tail. -/
def isPrefixL : Str → Str → Bool
  | [], _ => true
  | a :: as, l =>
    match l with
    | [] => false
    | b :: bs => (a = b) && isPrefixL as bs

/-- Python `a.startswith(p)`. -/
def startsWithS (s p : Str) : Bool := isPrefixL p s

/-- Python `n in h` (substring containment). -/
def containsS (h n : Str) : Bool :=
  match h with
  | [] => n.isEmpty
  | _ :: t => isPrefixL n h || containsS t n

/-- Python `s.split(d)` for a one-character delimiter (never returns `[]`). -/
def splitC (d : Char) : Str → List Str
  | [] => [[]]
  | c :: t =>
    if c = d then [] :: splitC d t
    else
      match splitC d t with
      | [] => [[c]]
      | h :: tl => (c :: h) :: tl

/-- Python `s.split(d, 1)`: at most one split. -/
def splitC1 (d : Char) (s : Str) : List Str :=
  match s with
  | [] => [[]]
  | c :: t =>
    if c = d then [[], t]
    else
      match splitC1 d t with
      | [] => [[c]]
      | h :: tl => (c :: h) :: tl

/-- Python `s.split(d, 2)`: at most two splits. -/
def splitC2 (d : Char) (s : Str) : List Str :=
  match s with
  | [] => [[]]
  | c :: t =>
    if c = d then [] :: splitC1 d t
    else
      match splitC2 d t with
      | [] => [[c]]
      | h :: tl => (c :: h) :: tl

/-- Python `s.split()` (split on whitespace runs, dropping empties). -/
def splitWs (s : Str) : List Str :=
  match s with
  | [] => []
  | c :: t =>
    if isWsChar c then splitWs t
    else
      match splitWs t with
      | [] => [[c]]
      | h :: tl =>
        match t with
        | [] => [[c]]
        | c' :: _ => if isWsChar c' then [c] :: h :: tl else (c :: h) :: tl

/-- Python `d.join(parts)` for a one-character joiner. -/
def joinC (d : Char) : List Str → Str
  | [] => []
  | [x] => x
  | x :: xs => x ++ d :: joinC d xs

/-- Python `s.find(sub)`: index of first occurrence, or `none`. -/
def findSub (h n : Str) : Option Nat :=
  match h with
  | [] => if n.isEmpty then some 0 else none
  | _ :: t =>
    if isPrefixL n h then some 0
    else (findSub t n).map (· + 1)

/-- Python `s.rfind(sub)`: index of last occurrence, or `none`. -/
def rfindSub (h n : Str) : Option Nat :=
  match h with
  | [] => if n.isEmpty then some 0 else none
  | _ :: t =>
    match rfindSub t n with
    | some i => some (i + 1)
    | none => if isPrefixL n h then some 0 else none

/-! ### Numeric string conversion (Python `int(...)` / `float(...)`) -/

def digitsToNat (ds : Str) : Nat :=
  ds.foldl (fun a c => a * 10 + (c.toNat - 48)) 0

/-- Python `int(s)` on decimal text: optional surrounding whitespace, optional
sign, one or more digits. -/
def pyInt (s : Str) : Option Int :=
  let t := strip s
  let su : Int × Str :=
    match t with
    | '+' :: r => (1, r)
    | '-' :: r => (-1, r)
    | r => (1, r)
  if su.2 ≠ [] && su.2.all isDigitChar then some (su.1 * (digitsToNat su.2 : Int)) else none

/-- Mantissa of a decimal float literal: `D+ [. D*]` or `. D+`, returning the
scaled integer mantissa, the power-of-ten scale, and the unconsumed rest
(`"12.5"` gives mantissa 125, scale 1: value `125 / 10 ^ 1`). -/
def pyFloatMant (u : Str) : Option (Nat × Nat × Str) :=
  let ip := u.takeWhile isDigitChar
  let r1 := u.dropWhile isDigitChar
  match r1 with
  | '.' :: r2 =>
    let fp := r2.takeWhile isDigitChar
    let r3 := r2.dropWhile isDigitChar
    if ip = [] && fp = [] then none
    else some (digitsToNat ip * 10 ^ fp.length + digitsToNat fp, fp.length, r3)
  | _ => if ip = [] then none else some (digitsToNat ip, 0, r1)

/-- `sgn * m * 10 ^ e` as a rational, built with one `mkRat` so that it
kernel-reduces. -/
def ratOfScaled (sgn : Int) (m : Nat) (e : Int) : ℚ :=
  if 0 ≤ e then mkRat (sgn * (m : Int) * (10 : Int) ^ e.toNat) 1
  else mkRat (sgn * (m : Int)) (10 ^ (-e).toNat)

/-- Python `float(s)` on finite decimal text (`inf`/`nan` spellings are not
produced by this log format and are out of the rational model). -/
def pyFloat (s : Str) : Option ℚ :=
  let t := strip s
  let su : Int × Str :=
    match t with
    | '+' :: r => (1, r)
    | '-' :: r => (-1, r)
    | r => (1, r)
  match pyFloatMant su.2 with
  | none => none
  | some (m, fexp, rest) =>
    match rest with
    | [] => some (ratOfScaled su.1 m (0 - (fexp : Int)))
    | e :: r2 =>
      if e = 'e' || e = 'E' then
        let es : Int × Str :=
          match r2 with
          | '+' :: r3 => (1, r3)
          | '-' :: r3 => (-1, r3)
          | r3 => (1, r3)
        if es.2 ≠ [] && es.2.all isDigitChar then
          some (ratOfScaled su.1 m (es.1 * (digitsToNat es.2 : Int) - (fexp : Int)))
        else none
      else none

/-! ### `re` search helpers

Each regex in the source has the shape "literal, then a character-class run,
then a literal suffix"; `searchPat` implements `re.search` for exactly that
shape (positions tried left to right, greedy run, at least one class char). -/

def searchPatAt (lit : Str) (cls : Char → Bool) (suf : Str) (s : Str) : Option Str :=
  if isPrefixL lit s then
    let r := s.drop lit.length
    let run := r.takeWhile cls
    if run ≠ [] && isPrefixL suf (r.dropWhile cls) then some run else none
  else none

def searchPat (lit : Str) (cls : Char → Bool) (suf : Str) : Str → Option Str
  | [] => none
  | c :: t =>
    match searchPatAt lit cls suf (c :: t) with
    | some r => some r
    | none => searchPat lit cls suf t

/-- `(.*?)` up to the first `]`, or `none` when no `]` follows. -/
def takeUntilClose : Str → Option Str
  | [] => none
  | c :: t => if c = ']' then some [] else (takeUntilClose t).map (c :: ·)

/-- `re.search(r"\[(.*?)\]", s)`: capture between the first `[` and the first
`]` after it. -/
def searchBracketLazy : Str → Option Str
  | [] => none
  | c :: t =>
    if c = '[' then
      match takeUntilClose t with
      | some r => some r
      | none => searchBracketLazy t
    else searchBracketLazy t

/-- `re.match(r"T(\d+)\s+(.+)", s)`, returning the thread id and the second
group already passed through `.strip()` as the callers do.  Lines contain no
newline, so `.` matches every remaining character. -/
def matchThread (s : Str) : Option (Int × Str) :=
  match s with
  | 'T' :: r =>
    let ds := r.takeWhile isDigitChar
    let r2 := r.dropWhile isDigitChar
    if ds = [] then none
    else
      match r2 with
      | [] => none
      | c :: rest =>
        if isWsChar c && rest ≠ [] then some ((digitsToNat ds : Int), strip r2) else none
  | _ => none

/-! ### Timestamps

`datetime` values become milliseconds since the Unix epoch; `datetime.now()`
becomes an explicit `now` argument; `timedelta` offsets become millisecond
integers (adding a `timedelta` to a naive `datetime` is absolute-time
addition, which epoch arithmetic models exactly). -/

def isLeapYear (y : Nat) : Bool := y % 4 = 0 && (y % 100 ≠ 0 || y % 400 = 0)

def daysInMonth (y m : Nat) : Nat :=
  if m = 1 then 31 else if m = 2 then (if isLeapYear y then 29 else 28)
  else if m = 3 then 31 else if m = 4 then 30 else if m = 5 then 31
  else if m = 6 then 30 else if m = 7 then 31 else if m = 8 then 31
  else if m = 9 then 30 else if m = 10 then 31 else if m = 11 then 30 else 31

def daysBeforeMonth (y m : Nat) : Nat :=
  (List.range (m - 1)).foldl (fun a i => a + daysInMonth y (i + 1)) 0

def daysBeforeYear (y : Nat) : Nat :=
  365 * (y - 1) + (y - 1) / 4 - (y - 1) / 100 + (y - 1) / 400

/-- Milliseconds since 1970-01-01 00:00:00 of a civil date-time
(719162 days separate 0001-01-01 from the epoch). -/
def epochMs (y mo d h mi s ms : Nat) : Int :=
  ((daysBeforeYear y + daysBeforeMonth y mo + (d - 1) : Int) - 719162) * 86400000
    + h * 3600000 + mi * 60000 + s * 1000 + ms

def d2n (c : Char) : Nat := c.toNat - 48

/-- `datetime.strptime(ts, "%Y-%m-%d %H:%M:%S.%f")` restricted to the shape
`\d{4}-\d{2}-\d{2} \d{2}:\d{2}:\d{2}\.\d{3}` that the line-gate regex hands
to `parse_timestamp`: succeeds exactly on calendar-valid instants. -/
def parseTsMs (l : Str) : Option Int :=
  match l with
  | [y1, y2, y3, y4, '-', m1, m2, '-', d1, d2, ' ', h1, h2, ':', n1, n2, ':', x1, x2, '.', f1, f2, f3] =>
    if [y1, y2, y3, y4, m1, m2, d1, d2, h1, h2, n1, n2, x1, x2, f1, f2, f3].all isDigitChar then
      let y := d2n y1 * 1000 + d2n y2 * 100 + d2n y3 * 10 + d2n y4
      let mo := d2n m1 * 10 + d2n m2
      let d := d2n d1 * 10 + d2n d2
      let h := d2n h1 * 10 + d2n h2
      let mi := d2n n1 * 10 + d2n n2
      let sec := d2n x1 * 10 + d2n x2
      let ms := d2n f1 * 100 + d2n f2 * 10 + d2n f3
      if 1 ≤ y && 1 ≤ mo && mo ≤ 12 && 1 ≤ d && d ≤ daysInMonth y mo
          && h ≤ 23 && mi ≤ 59 && sec ≤ 59 then
        some (epochMs y mo d h mi sec ms)
      else none
    else none
  | _ => none

/-- `datetime.strptime(ts, "%Y-%m-%d %H:%M:%S")` restricted likewise (on the
23-character strings produced by the gate it always fails: trailing `.fff`). -/
def parseTsSec (l : Str) : Option Int :=
  match l with
  | [y1, y2, y3, y4, '-', m1, m2, '-', d1, d2, ' ', h1, h2, ':', n1, n2, ':', x1, x2] =>
    if [y1, y2, y3, y4, m1, m2, d1, d2, h1, h2, n1, n2, x1, x2].all isDigitChar then
      let y := d2n y1 * 1000 + d2n y2 * 100 + d2n y3 * 10 + d2n y4
      let mo := d2n m1 * 10 + d2n m2
      let d := d2n d1 * 10 + d2n d2
      let h := d2n h1 * 10 + d2n h2
      let mi := d2n n1 * 10 + d2n n2
      let sec := d2n x1 * 10 + d2n x2
      if 1 ≤ y && 1 ≤ mo && mo ≤ 12 && 1 ≤ d && d ≤ daysInMonth y mo
          && h ≤ 23 && mi ≤ 59 && sec ≤ 59 then
        some (epochMs y mo d h mi sec 0)
      else none
    else none
  | _ => none

/-- `parse_timestamp` (source lines 84-96): millisecond parse, then second
parse, then the `datetime.now()` fallback, plus the configured offset. -/
def parse_timestamp (ts : Str) (offset now : Int) : Int :=
  match parseTsMs ts with
  | some t => t + offset
  | none =>
    match parseTsSec ts with
    | some t => t + offset
    | none => now + offset

/-! ### Values and the coercion library -/

/-- Element of a parsed delimited list: float, int-fallback, or raw string. -/
inductive Elem
  | ef (q : ℚ)
  | ei (n : Int)
  | es (s : Str)
deriving DecidableEq

/-- A Python value stored in a record field. -/
inductive Value
  | null
  | vint (n : Int)
  | vfloat (q : ℚ)
  | vstr (s : Str)
  | vbool (b : Bool)
  | vlist (l : List Elem)
deriving DecidableEq

inductive Target
  | auto
  | tstring
  | tfloat
  | tint
  | boolNumeric
deriving DecidableEq

/-- Result of `safe_clean_value`: the value plus whether a conversion-failure
warning was logged. -/
structure CleanResult where
  val : Value
  warned : Bool
deriving DecidableEq

/-- `safe_clean_value` (source lines 99-141). -/
def safe_clean_value (value : Option Str) (target : Target)
    (convertBoolToNumeric : Bool) : CleanResult :=
  match value with
  | none => ⟨.null, false⟩
  | some v0 =>
    if v0 = [] then ⟨.null, false⟩
    else
      let v := strip v0
      if v = [] || v = "None".data || v = "None,".data then ⟨.null, false⟩
      else
        match target with
        | .tstring => ⟨.vstr v, false⟩
        | .tfloat =>
          match pyFloat v with
          | some q => ⟨.vfloat q, false⟩
          | none => ⟨.null, true⟩
        | .tint =>
          match pyInt v with
          | some n => ⟨.vint n, false⟩
          | none => ⟨.null, true⟩
        | .boolNumeric =>
          if lower v = "true".data then ⟨.vint 1, false⟩
          else if lower v = "false".data then ⟨.vint 0, false⟩
          else ⟨.null, true⟩
        | .auto =>
          if v = "True".data || v = "False".data then
            if convertBoolToNumeric then ⟨.vint (if v = "True".data then 1 else 0), false⟩
            else ⟨.vbool (v = "True".data), false⟩
          else if containsS v ".".data then
            match pyFloat v with
            | some q => ⟨.vfloat q, false⟩
            | none => ⟨.vstr v, false⟩
          else
            match pyInt v with
            | some n => ⟨.vint n, false⟩
            | none => ⟨.vstr v, false⟩

/-- `convert_boolean_to_numeric` (source lines 143-153). -/
def convert_boolean_to_numeric (value : Option Str) : Value :=
  match value with
  | none => .null
  | some v0 =>
    if v0 = [] then .null
    else
      let v := strip v0
      if lower v = "true".data then .vint 1
      else if lower v = "false".data then .vint 0
      else .null

/-- Per-element coercion of `parse_list_values`: float, else int, else raw. -/
def coerceElem (part : Str) : Elem :=
  match pyFloat part with
  | some q => .ef q
  | none =>
    match pyInt part with
    | some n => .ei n
    | none => .es part

/-- `parse_list_values` (source lines 155-176). -/
def parse_list_values (s : Str) : List Elem :=
  if s = [] || strip s = [] then []
  else
    let cleaned := strip s
    let inner :=
      if startsWithS cleaned "[".data && cleaned.getLast? = some ']' then
        (cleaned.drop 1).dropLast
      else cleaned
    (((splitC ',' inner).map strip).filter (· ≠ [])).map coerceElem

/-- Keyword list of `is_error_message` (source lines 216-222). -/
def errorKeywords : List Str :=
  ["error".data, "warning".data, "exception".data, "failed".data, "failure".data,
   "fault".data, "critical".data, "timeout".data, "crash".data, "abort".data,
   "denied".data, "refuse".data, "invalid".data, "corrupt".data, "missing".data,
   "not found".data, "unable".data, "disconnect".data, "lost".data, "broken".data,
   "malfunction".data, "alert".data, "emergency".data, "panic".data, "fatal".data,
   "severe".data, "bad".data, "wrong".data]

/-- `is_error_message` (source lines 214-225). -/
def is_error_message (lc : Str) : Bool :=
  errorKeywords.any (containsS (lower lc))

/-- `parse_cpu_info` (source lines 178-210); `none` models the uncaught
`ValueError` of a `float(...)` applied to a capture such as `"."`, which the
per-line `except` turns into a dropped line. -/
def parse_cpu_info (dataPart : Str) : Option (List (String × Value)) :=
  let cpuPart : Option (List (String × Value)) :=
    match searchPat "CPU usage: ".data isDigitDot "%".data dataPart with
    | some cap =>
      match pyFloat cap with
      | some q => some [("cpu_usage_percent", .vfloat q)]
      | none => none
    | none => some []
  match cpuPart with
  | none => none
  | some fs1 =>
    let fs2 :=
      match searchPat "RAM usage: ".data isDigitChar " MB".data dataPart with
      | some cap => fs1 ++ [("ram_usage_mb", .vint (digitsToNat cap : Int))]
      | none => fs1
    let loadPart : Option (List (String × Value)) :=
      match searchPat "Load : (".data isLoadChar ")".data dataPart with
      | some cap =>
        let raw := (splitC ',' cap).map strip
        if raw.all (fun p => (pyFloat p).isSome) then
          let loads := raw.filterMap pyFloat
          some [("load_avg_1min", if h : 0 < loads.length then .vfloat (loads.get ⟨0, h⟩) else .null),
                ("load_avg_5min", if h : 1 < loads.length then .vfloat (loads.get ⟨1, h⟩) else .null),
                ("load_avg_15min", if h : 2 < loads.length then .vfloat (loads.get ⟨2, h⟩) else .null)]
        else none
      | none => some []
    match loadPart with
    | none => none
    | some fs3 =>
      let tempPart : Option (List (String × Value)) :=
        match searchPat "Temp: ".data isDigitDot "Â°C".data dataPart with
        | some cap =>
          match pyFloat cap with
          | some q => some [("temp_celsius", .vfloat q)]
          | none => none
        | none => some [("temp_celsius", .null)]
      match tempPart with
      | none => none
      | some fs4 => some (fs2 ++ fs3 ++ fs4)

/-! ### The record store -/

inductive Severity
  | INFO
  | WARNING
  | CRITICAL
deriving DecidableEq

/-- A decoded record: insertion-ordered field/value pairs (a Python dict). -/
abbrev Rcd := List (String × Value)

/-- An entry of the ERROR stream; the two synthetic header rows carry `none`
timestamps. -/
structure ErrEntry where
  ts : Option Int
  content : Str
deriving DecidableEq

/-- The non-ERROR keys of the `log_data` dictionary (source lines 38-74). -/
inductive Category
  | MISSION_INFO
  | MISSION_STATE_CHANGED
  | RC_CHANNELS
  | SERIAL_TCP_CON
  | CC_PARAMETER
  | CC_PARAMETER_SHELVE
  | CC_PARAMETER_TINY
  | AP_PARAMETER
  | AP_PARAMETER_TINY
  | MAVLINK_INFO
  | GA_SET_PARAM
  | GA_GET_PARAM
  | GA_PARAM
  | MAX_SPEED_ESTI
  | MAVLINK_ACTIVE_PORT
  | CPU
  | VERSION
  | BOUNDARY_INTR
  | VEHICLE_COMMAND
  | GUIDED_MISSION
  | RESUME_MISSION
  | RESUME_STATE
  | CC_PARAMETER_PERF
  | CC_PARAMETER_DB_PERF
  | SnA_RECEIVING_DATA
  | SnA_LOGGING
  | SnA_INFO
  | SPRAY_INFO
  | SCHEDULERTASK
  | FLOWMETER
  | FLOWMETER_INFO
  | PUMP
  | NOZZLE
  | OTHER
deriving DecidableEq

/-- The per-call `log_data` store: one ordered record list per category,
plus the ERROR stream. -/
structure LogData where
  MISSION_INFO : List Rcd
  MISSION_STATE_CHANGED : List Rcd
  RC_CHANNELS : List Rcd
  SERIAL_TCP_CON : List Rcd
  CC_PARAMETER : List Rcd
  CC_PARAMETER_SHELVE : List Rcd
  CC_PARAMETER_TINY : List Rcd
  AP_PARAMETER : List Rcd
  AP_PARAMETER_TINY : List Rcd
  MAVLINK_INFO : List Rcd
  GA_SET_PARAM : List Rcd
  GA_GET_PARAM : List Rcd
  GA_PARAM : List Rcd
  MAX_SPEED_ESTI : List Rcd
  MAVLINK_ACTIVE_PORT : List Rcd
  CPU : List Rcd
  VERSION : List Rcd
  BOUNDARY_INTR : List Rcd
  VEHICLE_COMMAND : List Rcd
  GUIDED_MISSION : List Rcd
  RESUME_MISSION : List Rcd
  RESUME_STATE : List Rcd
  CC_PARAMETER_PERF : List Rcd
  CC_PARAMETER_DB_PERF : List Rcd
  SnA_RECEIVING_DATA : List Rcd
  SnA_LOGGING : List Rcd
  SnA_INFO : List Rcd
  SPRAY_INFO : List Rcd
  SCHEDULERTASK : List Rcd
  FLOWMETER : List Rcd
  FLOWMETER_INFO : List Rcd
  PUMP : List Rcd
  NOZZLE : List Rcd
  ERROR : List ErrEntry
  OTHER : List Rcd
deriving DecidableEq

def initLogData : LogData :=
  ⟨[], [], [], [], [], [], [], [], [], [], [], [], [], [], [], [], [], [],
   [], [], [], [], [], [], [], [], [], [], [], [], [], [], [], [], []⟩

/-- Read the record list of a (non-ERROR) category. -/
def catList (st : LogData) : Category → List Rcd
  | .MISSION_INFO => st.MISSION_INFO
  | .MISSION_STATE_CHANGED => st.MISSION_STATE_CHANGED
  | .RC_CHANNELS => st.RC_CHANNELS
  | .SERIAL_TCP_CON => st.SERIAL_TCP_CON
  | .CC_PARAMETER => st.CC_PARAMETER
  | .CC_PARAMETER_SHELVE => st.CC_PARAMETER_SHELVE
  | .CC_PARAMETER_TINY => st.CC_PARAMETER_TINY
  | .AP_PARAMETER => st.AP_PARAMETER
  | .AP_PARAMETER_TINY => st.AP_PARAMETER_TINY
  | .MAVLINK_INFO => st.MAVLINK_INFO
  | .GA_SET_PARAM => st.GA_SET_PARAM
  | .GA_GET_PARAM => st.GA_GET_PARAM
  | .GA_PARAM => st.GA_PARAM
  | .MAX_SPEED_ESTI => st.MAX_SPEED_ESTI
  | .MAVLINK_ACTIVE_PORT => st.MAVLINK_ACTIVE_PORT
  | .CPU => st.CPU
  | .VERSION => st.VERSION
  | .BOUNDARY_INTR => st.BOUNDARY_INTR
  | .VEHICLE_COMMAND => st.VEHICLE_COMMAND
  | .GUIDED_MISSION => st.GUIDED_MISSION
  | .RESUME_MISSION => st.RESUME_MISSION
  | .RESUME_STATE => st.RESUME_STATE
  | .CC_PARAMETER_PERF => st.CC_PARAMETER_PERF
  | .CC_PARAMETER_DB_PERF => st.CC_PARAMETER_DB_PERF
  | .SnA_RECEIVING_DATA => st.SnA_RECEIVING_DATA
  | .SnA_LOGGING => st.SnA_LOGGING
  | .SnA_INFO => st.SnA_INFO
  | .SPRAY_INFO => st.SPRAY_INFO
  | .SCHEDULERTASK => st.SCHEDULERTASK
  | .FLOWMETER => st.FLOWMETER
  | .FLOWMETER_INFO => st.FLOWMETER_INFO
  | .PUMP => st.PUMP
  | .NOZZLE => st.NOZZLE
  | .OTHER => st.OTHER

/-- `log_data[cat].append(record)`. -/
def appendCat (c : Category) (r : Rcd) (st : LogData) : LogData :=
  match c with
  | .MISSION_INFO => { st with MISSION_INFO := st.MISSION_INFO ++ [r] }
  | .MISSION_STATE_CHANGED => { st with MISSION_STATE_CHANGED := st.MISSION_STATE_CHANGED ++ [r] }
  | .RC_CHANNELS => { st with RC_CHANNELS := st.RC_CHANNELS ++ [r] }
  | .SERIAL_TCP_CON => { st with SERIAL_TCP_CON := st.SERIAL_TCP_CON ++ [r] }
  | .CC_PARAMETER => { st with CC_PARAMETER := st.CC_PARAMETER ++ [r] }
  | .CC_PARAMETER_SHELVE => { st with CC_PARAMETER_SHELVE := st.CC_PARAMETER_SHELVE ++ [r] }
  | .CC_PARAMETER_TINY => { st with CC_PARAMETER_TINY := st.CC_PARAMETER_TINY ++ [r] }
  | .AP_PARAMETER => { st with AP_PARAMETER := st.AP_PARAMETER ++ [r] }
  | .AP_PARAMETER_TINY => { st with AP_PARAMETER_TINY := st.AP_PARAMETER_TINY ++ [r] }
  | .MAVLINK_INFO => { st with MAVLINK_INFO := st.MAVLINK_INFO ++ [r] }
  | .GA_SET_PARAM => { st with GA_SET_PARAM := st.GA_SET_PARAM ++ [r] }
  | .GA_GET_PARAM => { st with GA_GET_PARAM := st.GA_GET_PARAM ++ [r] }
  | .GA_PARAM => { st with GA_PARAM := st.GA_PARAM ++ [r] }
  | .MAX_SPEED_ESTI => { st with MAX_SPEED_ESTI := st.MAX_SPEED_ESTI ++ [r] }
  | .MAVLINK_ACTIVE_PORT => { st with MAVLINK_ACTIVE_PORT := st.MAVLINK_ACTIVE_PORT ++ [r] }
  | .CPU => { st with CPU := st.CPU ++ [r] }
  | .VERSION => { st with VERSION := st.VERSION ++ [r] }
  | .BOUNDARY_INTR => { st with BOUNDARY_INTR := st.BOUNDARY_INTR ++ [r] }
  | .VEHICLE_COMMAND => { st with VEHICLE_COMMAND := st.VEHICLE_COMMAND ++ [r] }
  | .GUIDED_MISSION => { st with GUIDED_MISSION := st.GUIDED_MISSION ++ [r] }
  | .RESUME_MISSION => { st with RESUME_MISSION := st.RESUME_MISSION ++ [r] }
  | .RESUME_STATE => { st with RESUME_STATE := st.RESUME_STATE ++ [r] }
  | .CC_PARAMETER_PERF => { st with CC_PARAMETER_PERF := st.CC_PARAMETER_PERF ++ [r] }
  | .CC_PARAMETER_DB_PERF => { st with CC_PARAMETER_DB_PERF := st.CC_PARAMETER_DB_PERF ++ [r] }
  | .SnA_RECEIVING_DATA => { st with SnA_RECEIVING_DATA := st.SnA_RECEIVING_DATA ++ [r] }
  | .SnA_LOGGING => { st with SnA_LOGGING := st.SnA_LOGGING ++ [r] }
  | .SnA_INFO => { st with SnA_INFO := st.SnA_INFO ++ [r] }
  | .SPRAY_INFO => { st with SPRAY_INFO := st.SPRAY_INFO ++ [r] }
  | .SCHEDULERTASK => { st with SCHEDULERTASK := st.SCHEDULERTASK ++ [r] }
  | .FLOWMETER => { st with FLOWMETER := st.FLOWMETER ++ [r] }
  | .FLOWMETER_INFO => { st with FLOWMETER_INFO := st.FLOWMETER_INFO ++ [r] }
  | .PUMP => { st with PUMP := st.PUMP ++ [r] }
  | .NOZZLE => { st with NOZZLE := st.NOZZLE ++ [r] }
  | .OTHER => { st with OTHER := st.OTHER ++ [r] }

def errHeaderRow : ErrEntry :=
  ⟨none, "::  This is a list of ERROR/FAILURE items extracted from logs  ::".data⟩

def errSeparatorRow : ErrEntry :=
  ⟨none, "---------------------------------------------------------------------------------".data⟩

/-- The list-level effect of `append_to_error_log` (source lines 227-242):
lazily create the two synthetic header rows, then append the real entry. -/
def errAppendList (l : List ErrEntry) (t : Int) (content : Str) : List ErrEntry :=
  (if l = [] then [errHeaderRow, errSeparatorRow] else l) ++ [⟨some t, content⟩]

/-- `append_to_error_log` acting on the store. -/
def append_to_error_log (st : LogData) (t : Int) (content : Str) : LogData :=
  { st with ERROR := errAppendList st.ERROR t content }

/-- What one dispatched payload does: at most one record appended to one
category, and at most one candidate ERROR entry (which `process_line`
suppresses when the line's severity already contributed one). -/
structure DispatchResult where
  cat : Option (Category × Rcd)
  err : Option Str
deriving DecidableEq

/-! ### Per-category decoders -/

/-- `log_content.split(',')[1:]` with every part stripped. -/
def partsAfterTag (lc : Str) : List Str :=
  ((splitC ',' lc).drop 1).map strip

/-- `safe_clean_value(data_parts[i], t) if len(data_parts) > i else None`. -/
def scvIdx (dp : List Str) (i : Nat) (t : Target) : Value :=
  match dp.get? i with
  | some p => (safe_clean_value (some p) t false).val
  | none => .null

def elemToValue : Elem → Value
  | .ef q => .vfloat q
  | .ei n => .vint n
  | .es s => .vstr s

/-- The flight-mode lookup table of the MISSION_INFO decoder
(source lines 304-329). -/
def modeMapping : List (Str × Int) :=
  [("STABILIZE".data, 0), ("ACRO".data, 1), ("ALT_HOLD".data, 2), ("AUTO".data, 3),
   ("GUIDED".data, 4), ("LOITER".data, 5), ("RTL".data, 6), ("CIRCLE".data, 7),
   ("LAND".data, 9), ("DRIFT".data, 11), ("SPORT".data, 13), ("FLIP".data, 14),
   ("AUTOTUNE".data, 15), ("POSHOLD".data, 16), ("BRAKE".data, 17), ("THROW".data, 18),
   ("AVOID_ADSB".data, 19), ("GUIDED_NOGPS".data, 20), ("SMART_RTL".data, 21),
   ("FLOWHOLD".data, 22), ("FOLLOW".data, 23), ("ZIGZAG".data, 24),
   ("SYSTEMID".data, 25), ("AUTOROTATE".data, 26)]

/-- MISSION_INFO decoder (source lines 292-365). -/
def missionInfoRec (ts : Int) (lc : Str) : Option (Category × Rcd) :=
  if containsS lc "mode, armed, flying".data then none
  else
    let dp := partsAfterTag lc
    if dp.length ≥ 9 then
      let modeV := scvIdx dp 0 .tstring
      let armedV := scvIdx dp 1 .tstring
      let flyingV := scvIdx dp 2 .tstring
      let modeVal : Value :=
        match modeV with
        | .vstr s =>
          match (modeMapping.find? (fun p => p.1 = upper s)).map (·.2) with
          | some n => .vint n
          | none => .null
        | _ => .null
      let armedVal : Value :=
        match armedV with
        | .vstr s =>
          if lower s = "armed".data then .vint 1
          else if lower s = "disarmed".data then .vint 0
          else .null
        | _ => .null
      let flyingVal : Value :=
        match flyingV with
        | .vstr s =>
          if lower s = "flying".data then .vint 1
          else if lower s = "not-flying".data then .vint 0
          else .null
        | _ => .null
      some (.MISSION_INFO,
        [("timestamp", .vint ts), ("flight_mode", modeV), ("flight_mode_val", modeVal),
         ("armed", armedV), ("armed_val", armedVal), ("flying", flyingV),
         ("flying_val", flyingVal), ("height_m", scvIdx dp 3 .tfloat),
         ("speed_ms", scvIdx dp 4 .tfloat), ("climb_rate_ms", scvIdx dp 5 .tfloat),
         ("heading_deg", scvIdx dp 6 .tfloat), ("lat_deg", scvIdx dp 7 .tfloat),
         ("lon_deg", scvIdx dp 8 .tfloat)])
    else none

/-- RC_CHANNELS decoder (source lines 368-395), including the `c6=1101`
rewrite. -/
def rcChannelsRec (ts : Int) (lc : Str) : Option (Category × Rcd) :=
  if containsS lc "rc1, rc2, rc3".data then none
  else
    let dp := partsAfterTag lc
    if dp.length ≥ 9 then
      let cleaned := (dp.take 10).map (fun p =>
        if containsS p "=".data then ((splitC '=' p).get? 1).getD [] else p)
      some (.RC_CHANNELS,
        ("timestamp", Value.vint ts) ::
          (List.range 10).map (fun k =>
            ("rc" ++ toString (k + 1), scvIdx cleaned k .tint)))
    else none

/-- RESUME_STATE decoder (source lines 398-413). -/
def resumeStateRec (ts : Int) (lc : Str) : Option (Category × Rcd) :=
  if containsS lc "lat, lon, height".data then none
  else
    let dp := partsAfterTag lc
    if dp.length ≥ 6 then
      some (.RESUME_STATE,
        [("timestamp", .vint ts), ("lat", scvIdx dp 0 .tfloat),
         ("lon", scvIdx dp 1 .tfloat), ("height", scvIdx dp 2 .tfloat),
         ("yaw", scvIdx dp 3 .tfloat), ("wp", scvIdx dp 4 .tint),
         ("spray", scvIdx dp 5 .tint)])
    else none

/-- SERIAL_TCP_CON decoder (source lines 416-427). -/
def serialTcpRec (ts : Int) (lc : Str) : Option (Category × Rcd) :=
  if containsS lc "serial_recv_bytes".data || containsS lc "Waiting for connection".data
      || containsS lc "Connecting with tcp".data then none
  else
    let dp := partsAfterTag lc
    if dp.length ≥ 2 then
      some (.SERIAL_TCP_CON,
        [("timestamp", .vint ts), ("serial_recv_bytes", scvIdx dp 0 .tint),
         ("serial_send_bytes", scvIdx dp 1 .tint)])
    else none

/-- MAVLink statustext severity table (source lines 459-469). -/
def statusSeverityName (n : Int) : Str :=
  if n = 0 then "EMERGENCY".data else if n = 1 then "ALERT".data
  else if n = 2 then "CRITICAL".data else if n = 3 then "ERROR".data
  else if n = 4 then "WARNING".data else if n = 5 then "NOTICE".data
  else if n = 6 then "INFO".data else if n = 7 then "DEBUG".data
  else if n = 8 then "NONE".data
  else "UNKNOWN_".data ++ (toString n).data

/-- VEHICLE_COMMAND decoder (source lines 430-486). -/
def vehicleCommandRec (ts : Int) (lc : Str) : Option (Category × Rcd) :=
  if strip lc = "VEHICLE_COMMAND".data || strip lc = "VEHICLE_COMMAND,".data then none
  else
    let message :=
      if startsWithS lc "VEHICLE_COMMAND, ".data then strip (lc.drop 17)
      else if startsWithS lc "VEHICLE_COMMAND,".data then strip (lc.drop 16)
      else strip (lc.drop 15)
    if message = [] then none
    else
      let tm : Str × Str :=
        if startsWithS message "Sent statustext: ".data then
          let statusPart := message.drop 17
          if containsS statusPart ":".data then
            let sevStr := strip ((splitC ':' statusPart).headD [])
            match pyInt sevStr with
            | some n =>
              let mt := "STATUS_TEXT_".data ++ statusSeverityName n
              let msg2 :=
                match findSub statusPart ":".data with
                | some i => strip (statusPart.drop (i + 1))
                | none => message
              (mt, msg2)
            | none => ("STATUS_TEXT_UNKNOWN".data, message)
          else ([], message)
        else ([], message)
      some (.VEHICLE_COMMAND,
        [("timestamp", .vint ts), ("message_type", .vstr tm.1), ("message", .vstr tm.2)])

/-- SCHEDULERTASK decoder (source lines 489-499). -/
def schedulerTaskRec (ts : Int) (lc : Str) : Option (Category × Rcd) :=
  let dp := partsAfterTag lc
  if dp.length ≥ 3 then
    some (.SCHEDULERTASK,
      [("timestamp", .vint ts), ("task_name", .vstr (dp.headD [])),
       ("parameter", .vstr ((dp.get? 1).getD [])), ("task_id", scvIdx dp 2 .tint)])
  else none

/-- The four startup-race / not-found error patterns of the CC_PARAMETER
decoder (source lines 504-509). -/
def ccParamErrorPatterns : List Str :=
  ["Created missing shelve key during startup race:".data,
   "Created missing TinyDB record during startup race:".data,
   "not found in memory or shelve DB".data,
   "not found in TinyDB memory or file".data]

/-- CC_PARAMETER decoder (source lines 502-526): error-pattern lines go to
the ERROR stream (at most once per line) and never yield a record. -/
def ccParameterRes (ts : Int) (lc : Str) : DispatchResult :=
  let isErr := ccParamErrorPatterns.any (fun p => containsS lc p)
  let dp := ((splitC2 ',' lc).drop 1).map strip
  let r : Option (Category × Rcd) :=
    if dp.length ≥ 2 && !isErr then
      some (.CC_PARAMETER,
        [("timestamp", .vint ts), ("key", .vstr (strip (dp.headD []))),
         ("value", .vstr (strip ((dp.get? 1).getD [])))])
    else none
  ⟨r, if isErr then some lc else none⟩

/-- The shared key/value decoder shape (`split(',', 2)[1:]`, value kept as a
raw string): CC_PARAMETER_SHELVE, CC_PARAMETER_TINY, AP_PARAMETER,
GA_SET_PARAM, GA_PARAM (source lines 528-611). -/
def kvRec (c : Category) (ts : Int) (lc : Str) : Option (Category × Rcd) :=
  let dp := ((splitC2 ',' lc).drop 1).map strip
  if dp.length ≥ 2 then
    some (c,
      [("timestamp", .vint ts), ("key", .vstr (strip (dp.headD []))),
       ("value", .vstr (strip ((dp.get? 1).getD [])))])
  else none

/-- AP_PARAMETER_TINY decoder (source lines 561-578), with the three-part
`VERSION, ARDUPILOT, 4_1_1_v11` special case. -/
def apParameterTinyRec (ts : Int) (lc : Str) : Option (Category × Rcd) :=
  let dp := partsAfterTag lc
  if dp.length ≥ 2 then
    let kv : Str × Str :=
      if dp.length ≥ 3 then
        (dp.headD [] ++ "_".data ++ (dp.get? 1).getD [], (dp.get? 2).getD [])
      else (dp.headD [], (dp.get? 1).getD [])
    some (.AP_PARAMETER_TINY,
      [("timestamp", .vint ts), ("key", .vstr (strip kv.1)), ("value", .vstr (strip kv.2))])
  else none

/-- GA_GET_PARAM decoder (source lines 591-600): `split(',', 1)[1:]`, no
value. -/
def gaGetParamRec (ts : Int) (lc : Str) : Option (Category × Rcd) :=
  let dp := ((splitC1 ',' lc).drop 1).map strip
  if dp.length ≥ 1 then
    some (.GA_GET_PARAM,
      [("timestamp", .vint ts), ("key", .vstr (strip (dp.headD []))), ("value", .null)])
  else none

/-- MAVLINK_INFO decoder (source lines 614-627). -/
def mavlinkInfoRec (ts : Int) (lc : Str) : Option (Category × Rcd) :=
  if containsS lc "name, messages_count".data then none
  else
    let dp := partsAfterTag lc
    if dp.length ≥ 3 then
      some (.MAVLINK_INFO,
        [("timestamp", .vint ts), ("name", .vstr (strip (dp.headD []))),
         ("messages_count", scvIdx dp 1 .tint),
         ("last_message", .vstr (strip ((dp.get? 2).getD []))),
         ("status", if dp.length > 3 then .vstr (strip ((dp.get? 3).getD [])) else .null)])
    else none

/-- MAX_SPEED_ESTI decoder (source lines 630-637); `none` covers both a
failed search and the `float(...)` ValueError on a capture like `"."`. -/
def maxSpeedRec (ts : Int) (lc : Str) : Option (Category × Rcd) :=
  match searchPat "Calculated max speed ".data isDigitDot [] lc with
  | some cap =>
    match pyFloat cap with
    | some q => some (.MAX_SPEED_ESTI, [("timestamp", .vint ts), ("max_speed", .vfloat q)])
    | none => none
  | none => none

/-- MAVLINK_ACTIVE_PORT decoder (source lines 640-647). -/
def activePortRec (ts : Int) (lc : Str) : Option (Category × Rcd) :=
  match searchPat "MAVLINK ACTIVE_MAVLINK_PORT is : ".data isDigitChar [] lc with
  | some cap =>
    some (.MAVLINK_ACTIVE_PORT,
      [("timestamp", .vint ts), ("active_port", .vint (digitsToNat cap : Int))])
  | none => none

/-- CPU decoder (source lines 650-655). -/
def cpuRec (ts : Int) (lc : Str) : Option (Category × Rcd) :=
  match parse_cpu_info lc with
  | some fields =>
    if fields ≠ [] then some (.CPU, ("timestamp", Value.vint ts) :: fields) else none
  | none => none

/-- VERSION decoder (source lines 658-710). -/
def versionRec (ts : Int) (lc : Str) : Option (Category × Rcd) :=
  let vd := strip (lc.drop 8)
  let cvr : Str × Str × Str :=
    if startsWithS vd "v".data && (splitWs vd).length = 1 then
      ("CC".data, vd, "Companion Computer".data)
    else if containsS vd "AP/FCS version".data then
      let vs :=
        match searchPat "GA ArduCopter V".data (fun c => c ≠ '(') [] vd with
        | some cap => strip cap
        | none =>
          if containsS vd ":".data then strip (((splitC ':' vd).get? 1).getD []) else vd
      ("AP/FCS".data, vs, "Flight Controller".data)
    else if containsS vd "GCS App version".data then
      let vs := if containsS vd ":".data then strip (((splitC ':' vd).get? 1).getD []) else vd
      ("GCS App".data, vs, "Ground Station".data)
    else ("Unknown".data, vd, "unknown".data)
  some (.VERSION,
    [("timestamp", .vint ts), ("component", .vstr cvr.1), ("version", .vstr cvr.2.1),
     ("component_type", .vstr cvr.2.2), ("raw_data", .vstr lc)])

/-- SnA version announcement into VERSION (source lines 713-723). -/
def snaVersionRec (ts : Int) (lc : Str) : Option (Category × Rcd) :=
  match searchPat "SnA version: ".data isWordChar [] lc with
  | some cap =>
    some (.VERSION,
      [("timestamp", .vint ts), ("component", .vstr "SnA".data), ("version", .vstr cap),
       ("component_type", .vstr "Sense & Avoid".data), ("raw_data", .vstr lc)])
  | none => none

/-- SnA:Receiving data decoder (source lines 726-744). -/
def snaReceivingRec (ts : Int) (lc : Str) : Option (Category × Rcd) :=
  let dataPart := strip (lc.drop 19)
  let dp := (splitC ',' dataPart).map strip
  if dp.length ≥ 9 then
    some (.SnA_RECEIVING_DATA,
      [("timestamp", .vint ts), ("data_val1", scvIdx dp 0 .tfloat),
       ("data_val2", scvIdx dp 1 .tfloat), ("data_val3", scvIdx dp 2 .tfloat),
       ("data_val4", scvIdx dp 3 .tfloat), ("data_val5", scvIdx dp 4 .tfloat),
       ("data_val6", scvIdx dp 5 .tfloat), ("data_val7", scvIdx dp 6 .tfloat),
       ("data_val8", scvIdx dp 7 .tint), ("data_val9", scvIdx dp 8 .tint)])
  else none

/-- SnAInfo free-text decoder (source lines 747-793). -/
def snaInfoRec (ts : Int) (lc : Str) : Option (Category × Rcd) :=
  if strip lc = "SnAInfo".data || strip lc = "SnAInfo,".data then none
  else
    let message :=
      if startsWithS lc "SnAInfo, ".data then strip (lc.drop 9)
      else if startsWithS lc "SnAInfo: ".data then strip (lc.drop 9)
      else if startsWithS lc "SnAInfo : ".data then strip (lc.drop 10)
      else if startsWithS lc "SnAInfo,".data then strip (lc.drop 8)
      else strip (lc.drop 7)
    if message = [] then none
    else
      let category : Str :=
        if startsWithS message "BOUNDARY_DATA".data then "BOUNDARY DATA".data
        else if startsWithS message "BOUNDARY_ITEM_INT".data then "BOUNDARY ITEM".data
        else if startsWithS message "BOUNDARY_COUNT".data then "BOUNDARY COUNT".data
        else if containsS message "Grid obstacle details:".data then "GRID OBSTACLE".data
        else if containsS message "Real time obstacle details:".data then
          "REAL-TIME OBSTACLE".data
        else if ["Guided GOTO_LAT_LON_CHANGED:".data, "Guided ALT_CHANGED:".data,
                 "Ignoring radar data marker".data, "Checking obstacle in".data,
                 "Ignore and Ignoring radar data markers".data].any
                (fun k => containsS message k) then
          "GUIDED/NAVIGATION INFO".data
        else if containsS message "Grid data updated with".data
            && containsS message "data\x27s in logs/sna/".data then
          "GRID UPDATE".data
        else []
      some (.SnA_INFO,
        [("timestamp", .vint ts), ("category", .vstr category), ("message", .vstr message)])

/-- The known-message table of the GUIDED_MISSION decoder
(source lines 818-841), in insertion order. -/
def guidedKnownMessages : List (Str × Str) :=
  [("START MISSION RECEIVED".data, "START_MISSION_RECEIVED".data),
   ("RTL COMMAND RECEIVED".data, "RTL_COMMAND_RECEIVED".data),
   ("RESUME COMMAND RECEIVED".data, "RESUME_COMMAND_RECEIVED".data),
   ("GOTO COMMAND RECEIVED".data, "GOTO_COMMAND_RECEIVED".data),
   ("STOPPING GUIDED CONTROLLER".data, "STOPPING_CONTROLLER".data),
   ("RESTART FROM SNA".data, "RESTART_FROM_SNA".data),
   ("Mode changed to guided".data, "MODE_CHANGE_GUIDED".data),
   (" Mode changed to guided".data, "MODE_CHANGE_GUIDED".data),
   ("guided take_off".data, "TAKEOFF".data),
   ("taking done".data, "TAKEOFF_COMPLETE".data),
   ("Turning Yaw".data, "SET_YAW".data),
   ("Checking HDNG".data, "CHECK_HEADING".data),
   ("Checking Yaw".data, "CHECK_YAW".data),
   ("No obstacle in front".data, "NO_OBSTACLE".data),
   ("following guided path.".data, "FOLLOWING_PATH".data),
   ("Smart_Path updated".data, "PATH_UPDATED".data),
   ("Resume Triggered, Guided Mode.".data, "RESUME_TRIGGERED".data),
   ("RTL Mode, Guided Mode".data, "RTL_TRIGGERED".data),
   ("Starting spray".data, "START_SPRAY".data),
   ("change_mode_to_auto".data, "MODE_CHANGE_AUTO".data),
   ("Resetting smart path index and sending resume waypoint message".data,
    "RESET_PATH_INDEX".data),
   ("starting scheduler_update_mission task.".data, "START_SCHEDULER".data)]

/-- The structured special patterns of the GUIDED_MISSION decoder
(source lines 858-892), tried when no table entry matched. -/
def guidedSpecial (gd : Str) : Option (Str × Str) :=
  if startsWithS gd "home_point :".data then
    some ("HOME_POINT".data, (searchBracketLazy gd).getD gd)
  else if startsWithS gd "GOTO_TEST,".data then
    some ("GOTO_TEST".data, strip (gd.drop 10))
  else if containsS gd "new_path_updated :".data then
    some ("NEW_PATH_UPDATED".data,
      if containsS gd ":".data then strip (((splitC ':' gd).get? 1).getD []) else gd)
  else if containsS gd "Going to waypoint".data then
    some ("GOTO_WAYPOINT".data, gd)
  else if containsS gd "Next waypoint set to:".data then
    some ("NEXT_WAYPOINT_SET".data,
      if containsS gd ":".data then strip (((splitC1 ':' gd).get? 1).getD []) else gd)
  else if containsS gd "increased smart_path_index + 1 :".data then
    some ("INCREMENT_PATH_INDEX".data, ((searchPat ": ".data isDigitChar [] gd).getD gd))
  else if containsS gd "time taken for calculation :".data then
    some ("CALCULATION_TIME".data, ((searchPat ": ".data isDigitChar [] gd).getD gd))
  else if containsS gd "Yaw is not within tolerance".data then
    some ("YAW_TOLERANCE_FAILED".data, ((searchPat "yaw_diff=".data isDigitDot [] gd).getD gd))
  else if containsS gd "State change failed".data then
    some ("STATE_CHANGE_FAILED".data, ((searchPat "time elapsed ".data isDigitChar [] gd).getD gd))
  else none

/-- GUIDED_MISSION / GUIDED_INFO decoder (source lines 796-905). -/
def guidedMissionRec (ts : Int) (lc : Str) : Option (Category × Rcd) :=
  let isInfo := startsWithS lc "GUIDED_INFO,".data && !startsWithS lc "GUIDED_MISSION,".data
  let mt : Str := if startsWithS lc "GUIDED_MISSION,".data then "GUIDED_MISSION".data
                  else "GUIDED_INFO".data
  let gd := if startsWithS lc "GUIDED_MISSION,".data then strip (lc.drop 15)
            else strip (lc.drop 12)
  let kd : Str × Str :=
    if isInfo then
      match findSub gd ", ".data with
      | some i => (strip (gd.drop (i + 2)), strip (gd.take i) ++ ", ".data ++ strip (gd.drop (i + 2)))
      | none => (gd, gd)
    else
      match (guidedKnownMessages.find? (fun p => p.1 = gd)).map (·.2) with
      | some k => (k, gd)
      | none =>
        match (guidedKnownMessages.find? (fun p => containsS gd p.1)).map (·.2) with
        | some k => (k, gd)
        | none =>
          match guidedSpecial gd with
          | some kd' => kd'
          | none => ([], gd)
  some (.GUIDED_MISSION,
    [("timestamp", .vint ts), ("message_type", .vstr mt), ("state_key", .vstr kd.1),
     ("description", .vstr kd.2)])

/-- Known RESUME message patterns (source lines 921-937), in insertion
order. -/
def resumeKnownPatterns : List (Str × Str) :=
  [("setting resume height".data, "SET_RESUME_HEIGHT".data),
   ("Resume mission aborted".data, "MISSION_ABORTED".data),
   ("TAKEOFF, taking off".data, "TAKEOFF_OPERATION".data),
   ("taking done".data, "TAKEOFF_COMPLETE".data),
   ("climb_to_clearance_alt".data, "CLIMB_CLEARANCE".data),
   ("change_mode_to_guided".data, "MODE_CHANGE_GUIDED".data),
   ("change_mode_to_auto".data, "MODE_CHANGE_AUTO".data),
   ("Turning Yaw".data, "TURNING_YAW".data),
   ("Checking Yaw".data, "CHECKING_YAW".data),
   ("Setting YAW".data, "SETTING_YAW".data),
   ("No obstacle in front".data, "NO_OBSTACLE".data),
   ("Starting spray".data, "START_SPRAY".data),
   ("goto_rtl_loc".data, "GOTO_RTL_LOCATION".data),
   ("descent_msn_alt".data, "DESCENT_MISSION_ALT".data),
   ("flight_mode, resume_state".data, "INFO_HEADER".data)]

/-- RESUME state enum names scanned inside upper-cased text
(source lines 955-958), in order. -/
def resumeStates : List Str :=
  ["NONE".data, "INITIATE".data, "MODE_CHANGE_GUIDED".data, "TAKE_OFF".data,
   "CLIMB_CLR_ALT".data, "SET_HDNG".data, "CHECK_HDNG".data, "OBST_IN_FRONT".data,
   "GOTO_RTL_LOC".data, "DESCENT_MSN_ALT".data, "START_SPRAY".data, "SET_NEXT_WP".data,
   "MODE_CHANGE_AUTO".data, "ABORT".data, "OBST_DETECTED".data, "RTL".data,
   "STOP_YAW".data, "AUTO_OBS_INFRONT".data, "START_AUTO".data]

/-- RESUME_MISSION_STATUS / RESUME_INFO / RESUME decoder
(source lines 908-984); the second component is the ERROR candidate. -/
def resumeRes (ts : Int) (lc : Str) : DispatchResult :=
  let mt : Str :=
    if startsWithS lc "RESUME_MISSION_STATUS,".data then "RESUME_MISSION_STATUS".data
    else if startsWithS lc "RESUME_INFO,".data then "RESUME_INFO".data
    else "RESUME".data
  let rd :=
    if startsWithS lc "RESUME_MISSION_STATUS,".data then strip (lc.drop 22)
    else if startsWithS lc "RESUME_INFO,".data then strip (lc.drop 12)
    else strip (lc.drop 7)
  let kd : Str × Str :=
    match resumeKnownPatterns.find? (fun p => containsS rd p.1) with
    | some p =>
      if p.1 = "setting resume height".data then
        (p.2, (searchPat ": ".data isDigitDot [] rd).getD rd)
      else (p.2, rd)
    | none =>
      match resumeStates.find? (fun s => containsS (upper rd) s) with
      | some s => ("STATE_".data ++ s, rd)
      | none => ("UNKNOWN_MESSAGE".data, rd)
  let r : Rcd :=
    [("timestamp", .vint ts), ("message_type", .vstr mt), ("state_key", .vstr kd.1),
     ("description", .vstr kd.2)]
  let e : Option Str :=
    if containsS (lower rd) "aborted".data || containsS (lower rd) "failed".data then
      some ("RESUME ERROR: ".data ++ rd)
    else none
  ⟨some (.RESUME_MISSION, r), e⟩

/-- The elapsed-time capture `([\d.]+)ms` of the performance decoders;
`none` (when a capture like `"."` exists but is not a float) models the
ValueError that drops the record. -/
def perfTime (remaining : Str) : Option Value :=
  match searchPat [] isDigitDot "ms".data remaining with
  | none => some .null
  | some cap =>
    match pyFloat cap with
    | some q => some (.vfloat q)
    | none => none

/-- CC_PARAMETER_PERF decoder (source lines 987-1065); `none` models a
failed thread match, an IndexError on the positional extraction, or a
ValueError on the time capture — all of which drop the record. -/
def ccParameterPerfRec (ts : Int) (lc : Str) : Option (Category × Rcd) :=
  match matchThread (strip (lc.drop 18)) with
  | none => none
  | some (tid, remaining) =>
    let parts := splitWs remaining
    let pvst : Option (Value × Value × Value) :=
      if containsS remaining "NOT_FOUND".data then
        match parts.get? 0 with
        | some p0 => some (.vstr p0, .null, .vstr "NOT_FOUND".data)
        | none => none
      else if containsS remaining "NO_CHANGE".data then
        match parts.get? 0 with
        | some p0 =>
          let idx := (findSub remaining "NO_CHANGE".data).getD 0
          let beforeParts := splitWs (strip (remaining.take idx))
          let v : Value :=
            if beforeParts.length ≥ 2 then .vstr ((beforeParts.get? 1).getD []) else .null
          some (.vstr p0, v, .vstr "NO_CHANGE".data)
        | none => none
      else if containsS remaining "OUT_OF_RANGE".data then
        match parts.get? 0, parts.get? 1 with
        | some p0, some p1 =>
          let st : Value :=
            match searchPat "OUT_OF_RANGE(".data (fun c => c ≠ ')') ")".data remaining with
            | some cap => .vstr ("OUT_OF_RANGE(".data ++ cap ++ ")".data)
            | none => .null
          some (.vstr p0, .vstr p1, st)
        | _, _ => none
      else if containsS remaining "SUCCESS".data then
        match parts.get? 0, parts.get? 1 with
        | some p0, some p1 => some (.vstr p0, .vstr p1, .vstr "SUCCESS".data)
        | _, _ => none
      else if containsS remaining "FAILED".data then
        match parts.get? 0, parts.get? 1 with
        | some p0, some p1 => some (.vstr p0, .vstr p1, .vstr "FAILED".data)
        | _, _ => none
      else some (.null, .null, .null)
    match pvst with
    | none => none
    | some (pn, v, stv) =>
      let needsTime := containsS remaining "NOT_FOUND".data
        || containsS remaining "NO_CHANGE".data || containsS remaining "OUT_OF_RANGE".data
        || containsS remaining "SUCCESS".data || containsS remaining "FAILED".data
      let timeV : Option Value := if needsTime then perfTime remaining else some .null
      match timeV with
      | none => none
      | some tv =>
        some (.CC_PARAMETER_PERF,
          [("timestamp", .vint ts), ("thread_id", .vint tid), ("param_name", pn),
           ("value", v), ("state", stv), ("time_taken_ms", tv)])

/-- CC_PARAMETER_DB_PERF decoder (source lines 1068-1105). -/
def ccParameterDbPerfRec (ts : Int) (lc : Str) : Option (Category × Rcd) :=
  match matchThread (strip (lc.drop 21)) with
  | none => none
  | some (tid, remaining) =>
    let sd : Value × Str :=
      if startsWithS remaining "NO_CHANGE".data then
        (.vstr "NO_CHANGE".data, strip (remaining.drop 9))
      else if containsS remaining "SUCCESS".data then
        match rfindSub remaining "SUCCESS".data with
        | some i => (.vstr "SUCCESS".data, strip (remaining.take i))
        | none => (.null, remaining)
      else if startsWithS remaining "ERROR".data || containsS remaining "ERROR in".data then
        (.vstr "ERROR".data,
         if startsWithS remaining "ERROR".data then strip (remaining.drop 5) else remaining)
      else (.null, remaining)
    some (.CC_PARAMETER_DB_PERF,
      [("timestamp", .vint ts), ("thread_id", .vint tid), ("state", sd.1),
       ("description", .vstr sd.2)])

/-- The 41 positional field names of the SnALogging record
(source lines 1121-1134). -/
def snaFieldNames : List String :=
  ["flight_mode", "guided_mission_state", "guided_controller_type",
   "obstacle_x", "obstacle_y", "obstacle_x_rot", "obstacle_y_rot",
   "obstacle_sector", "roll", "pitch", "yaw", "px", "py", "pz",
   "vx", "vy", "speed", "speed_rate", "terrain_alt", "mission_height",
   "target_altitude", "clearance_altitude", "course_over_ground",
   "course_over_ground_wVelocity", "COG_heading_angle_diff",
   "stopping_distance", "critical_stopping_distance", "heading_available",
   "horizontal_movement", "ignore_radar_data_near_waypoint",
   "ignoring_radar_data_near_waypoint", "ignore_radar_data_till",
   "braked_in_sna", "avoidance_state", "edge_avoidance_state",
   "false_trigger_restart_state", "obstacle_msg_delay_ms",
   "radar_delay", "grid_update_loop_time", "loop_time", "obstacle_buffer"]

/-- Fields exploded into N individually named columns (source line 1137). -/
def multiValueFieldsData : List (String × Nat) :=
  [("obstacle_sector", 6), ("obstacle_buffer", 2)]

def arrayFields : List String :=
  ["obstacle_x", "obstacle_y", "obstacle_x_rot", "obstacle_y_rot"]

def booleanFields : List String :=
  ["heading_available", "horizontal_movement", "ignore_radar_data_near_waypoint",
   "ignoring_radar_data_near_waypoint", "braked_in_sna"]

def numericStringFields : List String :=
  ["guided_mission_state", "guided_controller_type", "avoidance_state",
   "edge_avoidance_state", "false_trigger_restart_state"]

def multiCount (name : String) : Option Nat :=
  (multiValueFieldsData.find? (fun p => p.1 = name)).map (·.2)

/-- Columns written for one SnALogging field (loop body, source lines
1151-1219); `pv = none` is the `i ≥ len(pipe_parts)` backfill arm. -/
def snaFieldEffect (name : String) (pv : Option Str) : List (String × Value) :=
  match pv with
  | some rawPart =>
    let value := if rawPart ≠ [] then strip rawPart else []
    if value = [] || upper value = "NONE".data then
      match multiCount name with
      | some k => (List.range k).map (fun j => (name ++ toString (j + 1), Value.null))
      | none =>
        if arrayFields.contains name then [(name, .vlist [])] else [(name, .null)]
    else if arrayFields.contains name then
      [(name, .vlist (parse_list_values value))]
    else
      match multiCount name with
      | some k =>
        let vals := parse_list_values value
        (List.range k).map (fun j =>
          (name ++ toString (j + 1),
           match vals.get? j with
           | some e => elemToValue e
           | none => Value.null))
      | none =>
        if booleanFields.contains name then
          [(name, convert_boolean_to_numeric (some value))]
        else if numericStringFields.contains name then
          match pyFloat value with
          | some q => [(name, if q.den = 1 then .vint q.num else .vfloat q)]
          | none =>
            [(name, if value ≠ [] && upper value ≠ "NONE".data then .vstr value else .null)]
        else if name = "flight_mode" then
          [(name, if value ≠ [] && upper value ≠ "NONE".data then .vstr value else .null)]
        else
          [(name, (safe_clean_value (some value) .auto false).val)]
  | none =>
    match multiCount name with
    | some k => (List.range k).map (fun j => (name ++ toString (j + 1), Value.null))
    | none =>
      if arrayFields.contains name then [(name, .vlist [])] else [(name, .null)]

/-- The field loop: names paired positionally with pipe parts, missing
trailing parts backfilled. -/
def snaFields : List String → List Str → List (String × Value)
  | [], _ => []
  | n :: ns, [] => snaFieldEffect n none ++ snaFields ns []
  | n :: ns, p :: ps => snaFieldEffect n (some p) ++ snaFields ns ps

/-- SnALogging decoder (source lines 1108-1221). -/
def snaLoggingRec (ts : Int) (lc : Str) : Option (Category × Rcd) :=
  if containsS lc "flight_mode |".data then none
  else
    let dataPart := strip (lc.drop 11)
    let pipeParts := (splitC '|' dataPart).map strip
    if pipeParts.length ≥ 10 then
      some (.SnA_LOGGING, ("timestamp", Value.vint ts) :: snaFields snaFieldNames pipeParts)
    else none

/-- MISSION_STATE_CHANGED decoder (source lines 1224-1232). -/
def missionStateChangedRec (ts : Int) (lc : Str) : Option (Category × Rcd) :=
  let stateValue := strip (lc.drop 22)
  some (.MISSION_STATE_CHANGED,
    [("timestamp", .vint ts),
     ("value", (safe_clean_value (some stateValue) .tint false).val)])

/-- SPRAY_INFO decoder (source lines 1235-1256). -/
def sprayInfoRec (ts : Int) (lc : Str) : Option (Category × Rcd) :=
  if containsS lc "spray_status, pump_pwm".data then none
  else
    let dp := partsAfterTag lc
    if dp.length ≥ 12 then
      some (.SPRAY_INFO,
        [("timestamp", .vint ts), ("spray_status", scvIdx dp 0 .tint),
         ("pump_pwm", scvIdx dp 1 .tint), ("nozzle_pwm", scvIdx dp 2 .tint),
         ("req_flowrate_lpm", scvIdx dp 3 .tfloat),
         ("actual_flowrate_lpm", scvIdx dp 4 .tfloat),
         ("flowmeter_pulse", scvIdx dp 5 .tint), ("payload_rem_l", scvIdx dp 6 .tfloat),
         ("area_sprayed_acre", scvIdx dp 7 .tfloat),
         ("req_dosage_l_acre", scvIdx dp 8 .tfloat),
         ("actual_dosage_l_acre", scvIdx dp 9 .tfloat),
         ("prv_wp", scvIdx dp 10 .tint), ("next_wp", scvIdx dp 11 .tint)])
    else none

/-- FlOWMETER / FLOWMETER decoder (source lines 1259-1270). -/
def flowmeterRec (ts : Int) (lc : Str) : Option (Category × Rcd) :=
  if containsS lc "Flowrate(l/m), Signal_Count".data then none
  else
    let dp := partsAfterTag lc
    if dp.length ≥ 2 then
      some (.FLOWMETER,
        [("timestamp", .vint ts), ("flowrate_lpm", scvIdx dp 0 .tfloat),
         ("signal_count", scvIdx dp 1 .tint)])
    else none

/-- FLOWMETER_INFO decoder (source lines 1273-1279): parts are joined with
spaces, not individually stripped. -/
def flowmeterInfoRec (ts : Int) (lc : Str) : Option (Category × Rcd) :=
  let dp := (splitC ',' lc).drop 1
  some (.FLOWMETER_INFO,
    [("timestamp", .vint ts), ("flow_sensor_info", .vstr (strip (joinC ' ' dp)))])

/-- PUMP decoder (source lines 1282-1288). -/
def pumpRec (ts : Int) (lc : Str) : Option (Category × Rcd) :=
  let dp := (splitC ',' lc).drop 1
  some (.PUMP,
    [("timestamp", .vint ts), ("pump_info", .vstr (strip (joinC ' ' dp)))])

/-- NOZZLE decoder (source lines 1291-1310). -/
def nozzleRec (ts : Int) (lc : Str) : Option (Category × Rcd) :=
  let nozzleState := strip (lc.drop 7)
  let v : Value :=
    if nozzleState = "Stopped".data then .vint 0
    else if nozzleState = "Stop triggered".data then .vfloat (mkRat 1 2)
    else if nozzleState = "Start".data then .vint 1
    else .null
  some (.NOZZLE,
    [("timestamp", .vint ts), ("value", v), ("raw_value", .vstr nozzleState)])

/-- BOUNDARY_INTR decoder (source lines 1313-1334). -/
def boundaryIntrRec (ts : Int) (lc : Str) : Option (Category × Rcd) :=
  if strip lc = "BOUNDARY_INTR".data || strip lc = "BOUNDARY_INTR,".data then none
  else
    let message :=
      if startsWithS lc "BOUNDARY_INTR, ".data then strip (lc.drop 15)
      else if startsWithS lc "BOUNDARY_INTR,".data then strip (lc.drop 14)
      else strip (lc.drop 13)
    if message = [] then none
    else some (.BOUNDARY_INTR, [("timestamp", .vint ts), ("message", .vstr message)])

/-- Catch-all OTHER decoder (source lines 1336-1347): record plus the
keyword-scan ERROR candidate. -/
def otherRes (ts : Int) (lc : Str) : DispatchResult :=
  ⟨some (.OTHER, [("timestamp", .vint ts), ("log_content", .vstr lc)]),
   if is_error_message lc then some lc else none⟩

/-- The ordered `if/elif` dispatch chain over the payload
(source lines 290-1347), reduced to its record/ERROR effects. -/
def dispatchEffect (ts : Int) (lc : Str) : DispatchResult :=
  if startsWithS lc "MISSION_INFO".data then ⟨missionInfoRec ts lc, none⟩
  else if startsWithS lc "RC_CHANNELS".data then ⟨rcChannelsRec ts lc, none⟩
  else if startsWithS lc "RESUME_STATE".data then ⟨resumeStateRec ts lc, none⟩
  else if startsWithS lc "SERIAL_TCP_CON".data then ⟨serialTcpRec ts lc, none⟩
  else if startsWithS lc "VEHICLE_COMMAND".data then ⟨vehicleCommandRec ts lc, none⟩
  else if startsWithS lc "SCHEDULERTASK,".data then ⟨schedulerTaskRec ts lc, none⟩
  else if startsWithS lc "CC_PARAMETER,".data then ccParameterRes ts lc
  else if startsWithS lc "CC_PARAMETER_SHELVE,".data then ⟨kvRec .CC_PARAMETER_SHELVE ts lc, none⟩
  else if startsWithS lc "CC_PARAMETER_TINY,".data then ⟨kvRec .CC_PARAMETER_TINY ts lc, none⟩
  else if startsWithS lc "AP_PARAMETER,".data then ⟨kvRec .AP_PARAMETER ts lc, none⟩
  else if startsWithS lc "AP_PARAMETER_TINY,".data then ⟨apParameterTinyRec ts lc, none⟩
  else if startsWithS lc "GA_SET_PARAM,".data then ⟨kvRec .GA_SET_PARAM ts lc, none⟩
  else if startsWithS lc "GA_GET_PARAM,".data then ⟨gaGetParamRec ts lc, none⟩
  else if startsWithS lc "GA_PARAM,".data then ⟨kvRec .GA_PARAM ts lc, none⟩
  else if startsWithS lc "MAVLINK_INFO".data then ⟨mavlinkInfoRec ts lc, none⟩
  else if containsS lc "MAX_SPEED_ESTI".data && containsS lc "Calculated max speed".data then
    ⟨maxSpeedRec ts lc, none⟩
  else if containsS lc "MAVLINK ACTIVE_MAVLINK_PORT is :".data then ⟨activePortRec ts lc, none⟩
  else if startsWithS lc "CPU,".data then ⟨cpuRec ts lc, none⟩
  else if startsWithS lc "VERSION,".data then ⟨versionRec ts lc, none⟩
  else if startsWithS lc "SnAInfo,".data && containsS lc "SnA version:".data then
    ⟨snaVersionRec ts lc, none⟩
  else if startsWithS lc "SnA:Receiving data,".data then ⟨snaReceivingRec ts lc, none⟩
  else if startsWithS lc "SnAInfo".data then ⟨snaInfoRec ts lc, none⟩
  else if startsWithS lc "GUIDED_MISSION,".data || startsWithS lc "GUIDED_INFO,".data then
    ⟨guidedMissionRec ts lc, none⟩
  else if startsWithS lc "RESUME_MISSION_STATUS,".data || startsWithS lc "RESUME_INFO,".data
      || startsWithS lc "RESUME,".data then resumeRes ts lc
  else if startsWithS lc "CC_PARAMETER_PERF:".data then ⟨ccParameterPerfRec ts lc, none⟩
  else if startsWithS lc "CC_PARAMETER_DB_PERF:".data then ⟨ccParameterDbPerfRec ts lc, none⟩
  else if startsWithS lc "SnALogging,".data then ⟨snaLoggingRec ts lc, none⟩
  else if startsWithS lc "MISSION_STATE_CHANGED,".data then ⟨missionStateChangedRec ts lc, none⟩
  else if startsWithS lc "SPRAY_INFO".data then ⟨sprayInfoRec ts lc, none⟩
  else if startsWithS lc "FlOWMETER,".data || startsWithS lc "FLOWMETER,".data then
    ⟨flowmeterRec ts lc, none⟩
  else if startsWithS lc "FLOWMETER_INFO,".data then ⟨flowmeterInfoRec ts lc, none⟩
  else if startsWithS lc "PUMP,".data then ⟨pumpRec ts lc, none⟩
  else if startsWithS lc "NOZZLE,".data then ⟨nozzleRec ts lc, none⟩
  else if startsWithS lc "BOUNDARY_INTR".data then ⟨boundaryIntrRec ts lc, none⟩
  else otherRes ts lc

/-! ### The per-line pipeline -/

/-- The timestamp prefix regex `^\d{4}-\d{2}-\d{2} \d{2}:\d{2}:\d{2}\.\d{3}`
(source line 251). -/
def tsShapeOk (l : Str) : Bool :=
  match l with
  | a1 :: a2 :: a3 :: a4 :: b1 :: a5 :: a6 :: b2 :: a7 :: a8 :: b3 :: a9 :: a10 :: b4 ::
      a11 :: a12 :: b5 :: a13 :: a14 :: b6 :: a15 :: a16 :: a17 :: _ =>
    isDigitChar a1 && isDigitChar a2 && isDigitChar a3 && isDigitChar a4 && b1 = '-'
      && isDigitChar a5 && isDigitChar a6 && b2 = '-' && isDigitChar a7 && isDigitChar a8
      && b3 = ' ' && isDigitChar a9 && isDigitChar a10 && b4 = ':' && isDigitChar a11
      && isDigitChar a12 && b5 = ':' && isDigitChar a13 && isDigitChar a14 && b6 = '.'
      && isDigitChar a15 && isDigitChar a16 && isDigitChar a17
  | _ => false

/-- Severity of one comma field (source lines 269-274): tokens found by
substring containment, recorded with priority WARNING, CRITICAL, INFO. -/
def sevOfPart (p : Str) : Option Severity :=
  let ps := strip p
  if containsS ps "WARNING".data then some .WARNING
  else if containsS ps "CRITICAL".data then some .CRITICAL
  else if containsS ps "INFO".data then some .INFO
  else none

/-- Scan for the first severity-bearing field; the payload is the rejoined,
stripped remainder (source lines 268-280). -/
def findSeverity : List Str → Option (Severity × Str)
  | [] => none
  | p :: rest =>
    match sevOfPart p with
    | some sev => some (sev, strip (joinC ',' rest))
    | none => findSeverity rest

/-- The decodability gate (source lines 246-283): strip, non-empty,
timestamp prefix, severity token, non-empty payload. -/
def lineGate (line : Str) : Option (Str × Severity × Str) :=
  let l := strip line
  if tsShapeOk l then
    let rest := strip (l.drop 23)
    match findSeverity (splitC ',' rest) with
    | some (sev, content) => if content = [] then none else some (l.take 23, sev, content)
    | none => none
  else none

/-- One iteration of the scan loop (source lines 245-1352). -/
def processLine (offset now : Int) (st : LogData) (line : Str) : LogData :=
  match lineGate line with
  | none => st
  | some (tsStr, sev, lc) =>
    let ts := parse_timestamp tsStr offset now
    let added := sev = Severity.WARNING || sev = Severity.CRITICAL
    let st1 := if added then append_to_error_log st ts lc else st
    let res := dispatchEffect ts lc
    let st2 :=
      match res.err with
      | some ec => if added then st1 else append_to_error_log st1 ts ec
      | none => st1
    match res.cat with
    | some (c, r) => appendCat c r st2
    | none => st2

/-- The whole decode pass over the input lines. -/
def parse_log_file (offset now : Int) (lines : List Str) : LogData :=
  lines.foldl (processLine offset now) initLogData

/-- Number of non-synthetic ERROR entries (real appends always carry a
timestamp; only the two lazily created header rows carry `none`). -/
def realErrCount (l : List ErrEntry) : Nat :=
  (l.filter (fun e => e.ts.isSome)).length

/-- Apply `f` to the last element of a list. -/
def modifyLastF (f : Str → Str) : List Str → List Str
  | [] => []
  | [x] => [f x]
  | x :: y :: xs => x :: modifyLastF f (y :: xs)

/-! ## Shared lemmas -/

theorem findSeverity_eq_none (parts : List Str)
    (h : ∀ p ∈ parts, sevOfPart p = none) : findSeverity parts = none := by
  induction parts with
  | nil => rfl
  | cons p rest ih =>
    unfold findSeverity
    rw [h p (List.mem_cons_self p rest)]
    exact ih (fun q hq => h q (List.mem_cons_of_mem p hq))

theorem appendCat_ERROR (c : Category) (r : Rcd) (st : LogData) :
    (appendCat c r st).ERROR = st.ERROR := by
  cases c <;> rfl

/-- Every line either leaves the ERROR stream unchanged or passes it once
through `errAppendList`. -/
theorem processLine_ERROR (offset now : Int) (st : LogData) (line : Str) :
    (processLine offset now st line).ERROR = st.ERROR ∨
    ∃ t c, (processLine offset now st line).ERROR = errAppendList st.ERROR t c := by
  unfold processLine
  cases hg : lineGate line with
  | none => exact Or.inl rfl
  | some x =>
    obtain ⟨tsStr, sev, lc⟩ := x
    simp only
    by_cases ha : (sev = Severity.WARNING || sev = Severity.CRITICAL) = true
    · right
      refine ⟨parse_timestamp tsStr offset now, lc, ?_⟩
      simp only [ha, if_true]
      cases he : (dispatchEffect (parse_timestamp tsStr offset now) lc).err <;>
        cases hc : (dispatchEffect (parse_timestamp tsStr offset now) lc).cat <;>
          simp [ha, appendCat_ERROR, append_to_error_log]
    · rw [Bool.not_eq_true] at ha
      simp only [ha, Bool.false_eq_true, if_false]
      cases he : (dispatchEffect (parse_timestamp tsStr offset now) lc).err with
      | none =>
        left
        cases hc : (dispatchEffect (parse_timestamp tsStr offset now) lc).cat <;>
          simp [appendCat_ERROR, append_to_error_log]
      | some ec =>
        right
        refine ⟨parse_timestamp tsStr offset now, ec, ?_⟩
        cases hc : (dispatchEffect (parse_timestamp tsStr offset now) lc).cat <;>
          simp [ha, appendCat_ERROR, append_to_error_log]

/-- A WARNING/CRITICAL line appends its payload to the ERROR stream exactly
once (the dispatch-level candidates are suppressed by `added_to_error`). -/
theorem processLine_ERROR_of_sev (offset now : Int) (st : LogData) (line : Str)
    (tsStr : Str) (sev : Severity) (lc : Str)
    (hg : lineGate line = some (tsStr, sev, lc))
    (ha : (sev = Severity.WARNING || sev = Severity.CRITICAL) = true) :
    (processLine offset now st line).ERROR
      = errAppendList st.ERROR (parse_timestamp tsStr offset now) lc := by
  unfold processLine
  rw [hg]
  simp only [ha, if_true]
  cases he : (dispatchEffect (parse_timestamp tsStr offset now) lc).err <;>
    cases hc : (dispatchEffect (parse_timestamp tsStr offset now) lc).cat <;>
      simp [ha, appendCat_ERROR, append_to_error_log]

theorem realErrCount_append (l : List ErrEntry) (t : Int) (c : Str) :
    realErrCount (errAppendList l t c) = realErrCount l + 1 := by
  unfold errAppendList realErrCount
  by_cases hl : l = []
  · subst hl
    simp [errHeaderRow, errSeparatorRow, List.filter]
  · simp [hl, List.filter_append, List.filter]

/-- `errAppendList` preserves (and on first insertion establishes) the
header-rows invariant. -/
theorem errAppendList_inv (l : List ErrEntry) (t : Int) (c : Str)
    (h : l ≠ [] → l.take 2 = [errHeaderRow, errSeparatorRow]
        ∧ ∀ e ∈ l.drop 2, e.ts.isSome = true) :
    (errAppendList l t c).take 2 = [errHeaderRow, errSeparatorRow]
      ∧ ∀ e ∈ (errAppendList l t c).drop 2, e.ts.isSome = true := by
  by_cases hl : l = []
  · subst hl
    constructor
    · rfl
    · intro e he
      simp [errAppendList] at he
      simp [he]
  · obtain ⟨h1, h2⟩ := h hl
    have hlen : 2 ≤ l.length := by
      have := congrArg List.length h1
      simp [List.length_take] at this
      omega
    unfold errAppendList
    rw [if_neg hl]
    constructor
    · rw [List.take_append_of_le_length hlen]
      exact h1
    · intro e he
      rw [List.drop_append_of_le_length hlen] at he
      rcases List.mem_append.mp he with hm | hm
      · exact h2 e hm
      · simp at hm
        simp [hm]

theorem rstrip_cons (c : Char) (t : Str) :
    rstrip (c :: t) = if rstrip t = [] && isWsChar c then [] else c :: rstrip t := rfl

theorem rstrip_cons_of_not (c : Char) (t : Str)
    (h : (decide (rstrip t = []) && isWsChar c) = false) :
    rstrip (c :: t) = c :: rstrip t := by
  rw [rstrip_cons]
  simp [h]

theorem rstrip_eq_nil_iff (s : Str) :
    rstrip s = [] ↔ ∀ c ∈ s, isWsChar c = true := by
  induction s with
  | nil => simp [rstrip]
  | cons c t ih =>
    rw [rstrip_cons]
    by_cases h1 : rstrip t = [] <;> by_cases h2 : isWsChar c = true <;>
      simp only [h1, h2, List.forall_mem_cons, ← ih] <;> simp [h1, h2]

theorem lstrip_ws_cons (c : Char) (t : Str) (h : isWsChar c = true) :
    lstrip (c :: t) = lstrip t := by
  simp [lstrip, List.dropWhile, h]

theorem lstrip_nonws_cons (c : Char) (t : Str) (h : isWsChar c = false) :
    lstrip (c :: t) = c :: t := by
  simp [lstrip, List.dropWhile, h]

theorem lstrip_eq_nil_of_all_ws (s : Str) (h : ∀ c ∈ s, isWsChar c = true) :
    lstrip s = [] := by
  induction s with
  | nil => rfl
  | cons c t ih =>
    rw [lstrip_ws_cons c t (h c (List.mem_cons_self c t))]
    exact ih (fun x hx => h x (List.mem_cons_of_mem c hx))

theorem rstrip_idem (s : Str) : rstrip (rstrip s) = rstrip s := by
  induction s with
  | nil => rfl
  | cons c t ih =>
    rw [rstrip_cons]
    by_cases h1 : rstrip t = [] <;> by_cases h2 : isWsChar c = true
    · rw [if_pos (by simp [h1, h2])]
      rfl
    · rw [if_neg (by simp [h2]), rstrip_cons, ih]
      simp [h1, h2]
    · rw [if_neg (by simp [h1]), rstrip_cons, ih]
      simp [h1, h2]
    · rw [if_neg (by simp [h2]), rstrip_cons, ih]
      simp [h1, h2]

theorem strip_cons_ws (c : Char) (t : Str) (h : isWsChar c = true) :
    strip (c :: t) = strip t := by
  unfold strip
  rw [lstrip_ws_cons c t h]

theorem strip_cons_nonws (c : Char) (t : Str) (h : isWsChar c = false) :
    strip (c :: t) = c :: rstrip t := by
  unfold strip
  rw [lstrip_nonws_cons c t h, rstrip_cons]
  simp [h]

theorem strip_eq_nil_of_all_ws (s : Str) (h : ∀ c ∈ s, isWsChar c = true) :
    strip s = [] := by
  unfold strip
  rw [lstrip_eq_nil_of_all_ws s h]
  rfl

theorem strip_rstrip (s : Str) : strip (rstrip s) = strip s := by
  induction s with
  | nil => rfl
  | cons c t ih =>
    rw [rstrip_cons]
    by_cases h1 : rstrip t = [] <;> by_cases h2 : isWsChar c = true
    · rw [if_pos (by simp [h1, h2])]
      have ht : ∀ x ∈ t, isWsChar x = true := (rstrip_eq_nil_iff t).mp h1
      rw [strip_cons_ws c t h2, strip_eq_nil_of_all_ws t ht]
      rfl
    · simp only [Bool.not_eq_true] at h2
      rw [if_neg (by simp [h2])]
      rw [strip_cons_nonws c (rstrip t) h2, strip_cons_nonws c t h2, rstrip_idem]
    · rw [if_neg (by simp [h1])]
      rw [strip_cons_ws c (rstrip t) h2, strip_cons_ws c t h2, ih]
    · simp only [Bool.not_eq_true] at h2
      rw [if_neg (by simp [h2])]
      rw [strip_cons_nonws c (rstrip t) h2, strip_cons_nonws c t h2, rstrip_idem]

theorem splitC_ne_nil (d : Char) (s : Str) : splitC d s ≠ [] := by
  induction s with
  | nil => simp [splitC]
  | cons c t ih =>
    unfold splitC
    by_cases hc : c = d
    · simp [hc]
    · simp only [hc, if_neg, ite_false]
      cases h : splitC d t with
      | nil => exact absurd h ih
      | cons hh tt => simp

theorem joinC_splitC (d : Char) (s : Str) : joinC d (splitC d s) = s := by
  induction s with
  | nil => rfl
  | cons c t ih =>
    unfold splitC
    by_cases hc : c = d
    · subst hc
      simp only [if_pos rfl]
      cases h : splitC c t with
      | nil => exact absurd h (splitC_ne_nil c t)
      | cons hh tt =>
        rw [h] at ih
        cases tt <;> simp [joinC] at ih ⊢ <;> simp [ih]
    · simp only [hc, ite_false]
      cases h : splitC d t with
      | nil => exact absurd h (splitC_ne_nil d t)
      | cons hh tt =>
        rw [h] at ih
        cases tt <;> simp [joinC] at ih ⊢ <;> simp [ih]

theorem splitC_eq_single (d : Char) (s : Str) (h : ∀ c ∈ s, (c = d) = False) :
    splitC d s = [s] := by
  induction s with
  | nil => rfl
  | cons c t ih =>
    unfold splitC
    have hc : ¬(c = d) := by
      have := h c (List.mem_cons_self c t)
      simp [this]
    rw [if_neg hc, ih (fun x hx => h x (List.mem_cons_of_mem c hx))]

theorem map_strip_splitC_lstrip (d : Char) (hd : isWsChar d = false) (s : Str) :
    (splitC d (lstrip s)).map strip = (splitC d s).map strip := by
  induction s with
  | nil => rfl
  | cons c t ih =>
    by_cases hc : isWsChar c = true
    · have hcd : ¬(c = d) := by
        intro he
        rw [he, hd] at hc
        exact Bool.false_ne_true hc
      rw [lstrip_ws_cons c t hc, ih]
      rw [show splitC d (c :: t) = (match splitC d t with
            | [] => [[c]]
            | h :: tl => (c :: h) :: tl) from by
          simp only [splitC]
          rw [if_neg hcd]]
      cases h : splitC d t with
      | nil => exact absurd h (splitC_ne_nil d t)
      | cons hh tt => simp only [List.map_cons, strip_cons_ws c hh hc]
    · simp only [Bool.not_eq_true] at hc
      rw [lstrip_nonws_cons c t hc]

theorem splitC_rstrip_aux (d : Char) (c : Char) (t : Str)
    (hna : (decide (rstrip t = []) && isWsChar c) = false)
    (ih : splitC d (rstrip t) = modifyLastF rstrip (splitC d t)) :
    splitC d (c :: rstrip t) = modifyLastF rstrip (splitC d (c :: t)) := by
  by_cases hc : c = d
  · subst hc
    rw [show splitC c (c :: rstrip t) = [] :: splitC c (rstrip t) from by
          simp [splitC],
        show splitC c (c :: t) = [] :: splitC c t from by
          simp [splitC],
        ih]
    cases h : splitC c t with
    | nil => exact absurd h (splitC_ne_nil c t)
    | cons hh tt => rfl
  · rw [show splitC d (c :: rstrip t) = (match splitC d (rstrip t) with
            | [] => [[c]]
            | h :: tl => (c :: h) :: tl) from by
          simp only [splitC]
          rw [if_neg hc],
        show splitC d (c :: t) = (match splitC d t with
            | [] => [[c]]
            | h :: tl => (c :: h) :: tl) from by
          simp only [splitC]
          rw [if_neg hc]]
    cases h : splitC d (rstrip t) with
    | nil => exact absurd h (splitC_ne_nil d (rstrip t))
    | cons h2h t2t =>
      cases hsp : splitC d t with
      | nil => exact absurd hsp (splitC_ne_nil d t)
      | cons hh tt =>
        rw [h, hsp] at ih
        cases tt with
        | nil =>
          simp only [modifyLastF, List.cons.injEq] at ih
          obtain ⟨ih1, ih2⟩ := ih
          have hth : t = hh := by
            have hj := joinC_splitC d t
            rw [hsp] at hj
            simpa [joinC] using hj.symm
          subst ih2
          simp only [modifyLastF, List.cons.injEq, and_true]
          rw [show rstrip (c :: hh) = c :: rstrip hh from by
                rw [← hth]
                exact rstrip_cons_of_not c t hna,
              ih1]
        | cons x xs =>
          simp only [modifyLastF, List.cons.injEq] at ih
          obtain ⟨ih1, ih2⟩ := ih
          simp only [modifyLastF, List.cons.injEq]
          simp [ih1, ih2]

theorem splitC_rstrip (d : Char) (hd : isWsChar d = false) (s : Str) :
    splitC d (rstrip s) = modifyLastF rstrip (splitC d s) := by
  induction s with
  | nil => rfl
  | cons c t ih =>
    rw [rstrip_cons]
    by_cases h1 : rstrip t = [] <;> by_cases h2 : isWsChar c = true
    · -- whole tail is whitespace and `c` is whitespace: everything strips away
      rw [if_pos (by simp [h1, h2])]
      have ht : ∀ x ∈ t, isWsChar x = true := (rstrip_eq_nil_iff t).mp h1
      have hnd : ∀ x ∈ t, (x = d) = False := by
        intro x hx
        have hw := ht x hx
        simp only [eq_iff_iff, iff_false]
        intro he
        rw [he, hd] at hw
        exact Bool.false_ne_true hw
      have hcd : ¬(c = d) := by
        intro he
        rw [he, hd] at h2
        exact Bool.false_ne_true h2
      rw [show splitC d (c :: t) = (c :: t) :: [] from by
        unfold splitC
        rw [if_neg hcd, splitC_eq_single d t hnd]]
      simp [modifyLastF, rstrip_cons, h1, h2, splitC]
    · rw [if_neg (by simp [h2])]
      exact splitC_rstrip_aux d c t (by simp [h2]) ih
    · rw [if_neg (by simp [h1])]
      exact splitC_rstrip_aux d c t (by simp [h1]) ih
    · rw [if_neg (by simp [h2])]
      exact splitC_rstrip_aux d c t (by simp [h2]) ih

theorem map_strip_modifyLastF (l : List Str) :
    (modifyLastF rstrip l).map strip = l.map strip := by
  induction l with
  | nil => rfl
  | cons x xs ih =>
    cases xs with
    | nil => simp [modifyLastF, strip_rstrip]
    | cons y ys =>
      simp only [modifyLastF, List.map_cons]
      rw [show (modifyLastF rstrip (y :: ys)).map strip = (y :: ys).map strip from ih]
      simp

theorem map_strip_splitC_strip (s : Str) :
    (splitC ',' (strip s)).map strip = (splitC ',' s).map strip := by
  have hd : isWsChar ',' = false := rfl
  show (splitC ',' (rstrip (lstrip s))).map strip = _
  rw [splitC_rstrip ',' hd (lstrip s), map_strip_modifyLastF,
    map_strip_splitC_lstrip ',' hd s]

theorem rstrip_append_nonws (s : Str) (b : Char) (hb : isWsChar b = false) :
    rstrip (s ++ [b]) = s ++ [b] := by
  induction s with
  | nil => simp [rstrip_cons, rstrip, hb]
  | cons c t ih =>
    simp only [List.cons_append]
    rw [rstrip_cons, ih]
    simp [hb]

theorem strip_bracket_closed (s : Str) :
    strip ('[' :: (s ++ [']'])) = '[' :: (s ++ [']']) := by
  rw [strip_cons_nonws '[' (s ++ [']']) rfl, rstrip_append_nonws s ']' rfl]

theorem all_ws_of_strip_eq_nil (s : Str) (h : strip s = []) :
    ∀ c ∈ s, isWsChar c = true := by
  induction s with
  | nil => simp
  | cons c t ih =>
    by_cases hc : isWsChar c = true
    · rw [strip_cons_ws c t hc] at h
      intro x hx
      rcases List.mem_cons.mp hx with he | ht
      · rw [he]
        exact hc
      · exact ih h x ht
    · simp only [Bool.not_eq_true] at hc
      rw [strip_cons_nonws c t hc] at h
      exact absurd h (by simp)

theorem lookup_cons_ne {β : Type} (k a : String) (b : β) (l : List (String × β))
    (h : ¬(k = a)) : List.lookup k ((a, b) :: l) = List.lookup k l := by
  simp [List.lookup, beq_eq_false_iff_ne.mpr h]

theorem lookup_append_of_eq_none {β : Type} (k : String) (l₁ l₂ : List (String × β))
    (h : List.lookup k l₁ = none) :
    List.lookup k (l₁ ++ l₂) = List.lookup k l₂ := by
  induction l₁ with
  | nil => rfl
  | cons x t ih =>
    obtain ⟨a, b⟩ := x
    by_cases hk : k = a
    · subst hk
      simp [List.lookup] at h
    · rw [List.cons_append, lookup_cons_ne k a b _ hk]
      rw [lookup_cons_ne k a b t hk] at h
      exact ih h

theorem lookup_append_of_eq_some {β : Type} (k : String) (l₁ l₂ : List (String × β))
    (v : β) (h : List.lookup k l₁ = some v) :
    List.lookup k (l₁ ++ l₂) = some v := by
  induction l₁ with
  | nil => exact absurd h (by simp [List.lookup])
  | cons x t ih =>
    obtain ⟨a, b⟩ := x
    by_cases hk : k = a
    · subst hk
      simp [List.lookup] at h ⊢
      exact h
    · rw [List.cons_append, lookup_cons_ne k a b _ hk]
      rw [lookup_cons_ne k a b t hk] at h
      exact ih h

theorem lookup_eq_none_of_not_mem {β : Type} (l : List (String × β)) (k : String)
    (h : ¬(k ∈ l.map Prod.fst)) : List.lookup k l = none := by
  induction l with
  | nil => rfl
  | cons x t ih =>
    obtain ⟨a, b⟩ := x
    simp only [List.map_cons, List.mem_cons] at h
    push_neg at h
    rw [lookup_cons_ne k a b t h.1]
    exact ih h.2

/-- The columns written for one SnALogging field carry either exactly the
field name, or exactly its numbered expansion when it is a multi-value
field — independently of the field value. -/
theorem snaFieldEffect_keys (n : String) (pv : Option Str) :
    (snaFieldEffect n pv).map Prod.fst = [n] ∨
    ∃ k, multiCount n = some k ∧
      (snaFieldEffect n pv).map Prod.fst
        = (List.range k).map (fun j => n ++ toString (j + 1)) := by
  unfold snaFieldEffect
  cases pv with
  | none =>
    cases hm : multiCount n with
    | none =>
      simp only [hm]
      split <;> simp [List.map_map]
    | some k =>
      simp only [hm]
      simp [List.map_map]
  | some raw =>
    cases hm : multiCount n with
    | none =>
      simp only [hm]
      repeat' split
      all_goals simp [List.map_map]
    | some k =>
      simp only [hm]
      repeat' split
      all_goals simp [List.map_map]

theorem snaFieldEffect_lookup_none (n : String) (pv : Option Str) (k : String)
    (hk1 : ¬(k = n)) (hk2 : multiCount n = none) :
    List.lookup k (snaFieldEffect n pv) = none := by
  rcases snaFieldEffect_keys n pv with h | ⟨k', hk', _⟩
  · apply lookup_eq_none_of_not_mem
    rw [h]
    simp [hk1]
  · rw [hk2] at hk'
    exact absurd hk' (by simp)

theorem snaFields_cons (n : String) (ns : List String) (p : Str) (ps : List Str) :
    snaFields (n :: ns) (p :: ps) = snaFieldEffect n (some p) ++ snaFields ns ps := rfl

theorem processLine_of_gate_none (offset now : Int) (st : LogData) (line : Str)
    (h : lineGate line = none) : processLine offset now st line = st := by
  unfold processLine
  rw [h]

theorem lineGate_none_of_ts (line : Str) (h : tsShapeOk (strip line) = false) :
    lineGate line = none := by
  simp only [lineGate]
  rw [h]
  rfl

theorem lineGate_none_of_sev (line : Str)
    (h : findSeverity (splitC ',' (strip ((strip line).drop 23))) = none) :
    lineGate line = none := by
  simp only [lineGate]
  rw [h]
  split <;> rfl

theorem lineGate_none_of_empty (line : Str) (sev : Severity)
    (h : findSeverity (splitC ',' (strip ((strip line).drop 23))) = some (sev, [])) :
    lineGate line = none := by
  simp only [lineGate]
  rw [h]
  split <;> rfl

/-! ## Claim theorems -/

/-- C1: the claim says the timestamp normalizer never substitutes the current
wall-clock time, making the decode deterministic in the input and offset
alone.  The code refutes this: on a calendar-invalid date whose text still
matches the decodable-line pattern (2024-02-30), both strptime calls fail and
`parse_timestamp` returns `datetime.now() + offset`, so the same input
decoded at two different wall-clock instants yields different record
stores. -/
theorem c1_timestamp_wallclock_fallback :
    (∀ offset now : Int,
      parse_timestamp "2024-02-30 10:00:00.000".data offset now = now + offset) ∧
    parse_log_file 0 0
        ["2024-02-30 10:00:00.000,drone1,INFO,MSG,calibration step".data]
      ≠ parse_log_file 0 60000
        ["2024-02-30 10:00:00.000,drone1,INFO,MSG,calibration step".data] := by
  refine ⟨fun offset now => rfl, ?_⟩
  decide

/-- C2: a line without the decodable timestamp prefix, or with no
comma-delimited field carrying a severity token, or with an empty payload
after the severity field, changes nothing: no record in any category and no
ERROR-stream entry. -/
theorem c2_nondecodable_lines_skipped (offset now : Int) (st : LogData) (line : Str) :
    (tsShapeOk (strip line) = false → processLine offset now st line = st) ∧
    ((∀ p ∈ splitC ',' (strip ((strip line).drop 23)), sevOfPart p = none) →
      processLine offset now st line = st) ∧
    (∀ sev, findSeverity (splitC ',' (strip ((strip line).drop 23))) = some (sev, []) →
      processLine offset now st line = st) := by
  refine ⟨?_, ?_, ?_⟩
  · intro h
    exact processLine_of_gate_none offset now st line (lineGate_none_of_ts line h)
  · intro h
    exact processLine_of_gate_none offset now st line
      (lineGate_none_of_sev line (findSeverity_eq_none _ h))
  · intro sev h
    exact processLine_of_gate_none offset now st line
      (lineGate_none_of_empty line sev h)

/-- Witness for C2: a line with no timestamp, a timestamped line with no
severity token, and a timestamped line whose payload after the severity
token is empty are all skipped. -/
theorem c2_nondecodable_lines_skipped_witness :
    processLine 0 0 initLogData "hello world".data = initLogData ∧
    processLine 0 0 initLogData "2024-01-01 10:00:00.000,drone1,DEBUG,hello".data
      = initLogData ∧
    processLine 0 0 initLogData "2024-01-01 10:00:00.000,drone1,INFO".data
      = initLogData :=
  ⟨(c2_nondecodable_lines_skipped 0 0 initLogData "hello world".data).1 (by decide),
   (c2_nondecodable_lines_skipped 0 0 initLogData
      "2024-01-01 10:00:00.000,drone1,DEBUG,hello".data).2.1 (by decide),
   (c2_nondecodable_lines_skipped 0 0 initLogData
      "2024-01-01 10:00:00.000,drone1,INFO".data).2.2 Severity.INFO (by decide)⟩

/-- C3: one decodable line appends at most one non-synthetic entry to the
ERROR stream, and exactly one when its severity is WARNING or CRITICAL
(the synthetic header pair, claim C4, is excluded from the count). -/
theorem c3_error_stream_at_most_once (offset now : Int) (st : LogData) (line : Str) :
    realErrCount (processLine offset now st line).ERROR
        ≤ realErrCount st.ERROR + 1 ∧
    (∀ tsStr sev lc, lineGate line = some (tsStr, sev, lc) →
      sev = Severity.WARNING ∨ sev = Severity.CRITICAL →
      realErrCount (processLine offset now st line).ERROR
        = realErrCount st.ERROR + 1) := by
  constructor
  · rcases processLine_ERROR offset now st line with h | ⟨t, c, h⟩ <;> rw [h]
    · omega
    · rw [realErrCount_append]
  · intro tsStr sev lc hg hsev
    have ha : (sev = Severity.WARNING || sev = Severity.CRITICAL) = true := by
      rcases hsev with h | h <;> simp [h]
    rw [processLine_ERROR_of_sev offset now st line tsStr sev lc hg ha,
      realErrCount_append]

/-- Witness for C3 on a concrete WARNING line over the empty store. -/
theorem c3_error_stream_at_most_once_witness :
    realErrCount (processLine 0 0 initLogData
        "2024-01-01 10:00:00.000,d,WARNING,FOO_BAR, all good".data).ERROR
      = realErrCount initLogData.ERROR + 1 :=
  (c3_error_stream_at_most_once 0 0 initLogData
      "2024-01-01 10:00:00.000,d,WARNING,FOO_BAR, all good".data).2
    "2024-01-01 10:00:00.000".data Severity.WARNING "FOO_BAR, all good".data
    (by decide) (Or.inl rfl)

/-- C4: in every decode pass, a non-empty ERROR stream starts with exactly
the two synthetic header/separator rows (null timestamps), created lazily on
first insertion and never duplicated: every entry after the first two is a
real, timestamped entry. -/
theorem c4_error_header_rows (offset now : Int) (lines : List Str) :
    (parse_log_file offset now lines).ERROR ≠ [] →
      (parse_log_file offset now lines).ERROR.take 2
          = [errHeaderRow, errSeparatorRow] ∧
      ∀ e ∈ (parse_log_file offset now lines).ERROR.drop 2, e.ts.isSome = true := by
  suffices h : ∀ st : LogData,
      (st.ERROR ≠ [] → st.ERROR.take 2 = [errHeaderRow, errSeparatorRow]
        ∧ ∀ e ∈ st.ERROR.drop 2, e.ts.isSome = true) →
      ((lines.foldl (processLine offset now) st).ERROR ≠ [] →
        (lines.foldl (processLine offset now) st).ERROR.take 2
            = [errHeaderRow, errSeparatorRow]
          ∧ ∀ e ∈ (lines.foldl (processLine offset now) st).ERROR.drop 2,
              e.ts.isSome = true) by
    exact h initLogData (fun hne => absurd rfl hne)
  induction lines with
  | nil => exact fun st hst => hst
  | cons a as ih =>
    intro st hst
    apply ih
    intro hne2
    rcases processLine_ERROR offset now st a with h | ⟨t, c, h⟩
    · rw [h] at hne2 ⊢
      exact hst hne2
    · rw [h]
      exact errAppendList_inv st.ERROR t c hst

/-- Witness for C4 after decoding one WARNING line. -/
theorem c4_error_header_rows_witness :
    (parse_log_file 0 0
        ["2024-01-01 10:00:00.000,d,WARNING,FOO_BAR, all good".data]).ERROR.take 2
        = [errHeaderRow, errSeparatorRow] ∧
    ∀ e ∈ (parse_log_file 0 0
        ["2024-01-01 10:00:00.000,d,WARNING,FOO_BAR, all good".data]).ERROR.drop 2,
      e.ts.isSome = true :=
  c4_error_header_rows 0 0
    ["2024-01-01 10:00:00.000,d,WARNING,FOO_BAR, all good".data] (by decide)

/-- C5: the single MISSION_INFO scenario line with zero offset decodes to
exactly one MISSION_INFO record with `flight_mode="GUIDED"`,
`flight_mode_val=4`, `armed_val=1`, `flying_val=1`, `height_m=12.5`
(independently of the wall clock, since the timestamp parses). -/
theorem c5_mission_info_line (now : Int) :
    (processLine 0 now initLogData
        "2024-01-01 10:00:00.000,drone1,INFO,MISSION_INFO,GUIDED,armed,flying,12.5,3.2,0.1,90.0,18.52,73.85".data).MISSION_INFO.map
      (fun r => [r.lookup "flight_mode", r.lookup "flight_mode_val",
                 r.lookup "armed_val", r.lookup "flying_val", r.lookup "height_m"])
      = [[some (.vstr "GUIDED".data), some (.vint 4), some (.vint 1), some (.vint 1),
          some (.vfloat (mkRat 25 2))]] := rfl

/-- C7: `bool_numeric` coercion maps case-insensitive true/false to 1/0, maps
null-normalized input (empty, `None`, `None,`) to null without a failure
report, and reports a conversion failure with a null value on every other
input. -/
theorem c7_bool_numeric (v : Str) :
    (lower (strip v) = "true".data →
      safe_clean_value (some v) .boolNumeric false = ⟨.vint 1, false⟩) ∧
    (lower (strip v) = "false".data →
      safe_clean_value (some v) .boolNumeric false = ⟨.vint 0, false⟩) ∧
    ((v = [] ∨ strip v = [] ∨ strip v = "None".data ∨ strip v = "None,".data) →
      safe_clean_value (some v) .boolNumeric false = ⟨.null, false⟩) ∧
    (v ≠ [] → strip v ≠ [] → strip v ≠ "None".data → strip v ≠ "None,".data →
      lower (strip v) ≠ "true".data → lower (strip v) ≠ "false".data →
      safe_clean_value (some v) .boolNumeric false = ⟨.null, true⟩) := by
  refine ⟨?_, ?_, ?_, ?_⟩
  · intro h
    have h1 : v ≠ [] := by
      intro hv; rw [hv] at h; exact absurd h (by decide)
    have h2 : strip v ≠ [] := by
      intro hs; rw [hs] at h; exact absurd h (by decide)
    have h3 : strip v ≠ "None".data := by
      intro hs; rw [hs] at h; exact absurd h (by decide)
    have h4 : strip v ≠ "None,".data := by
      intro hs; rw [hs] at h; exact absurd h (by decide)
    simp [safe_clean_value, h1, h2, h3, h4, h]
  · intro h
    have h1 : v ≠ [] := by
      intro hv; rw [hv] at h; exact absurd h (by decide)
    have h2 : strip v ≠ [] := by
      intro hs; rw [hs] at h; exact absurd h (by decide)
    have h3 : strip v ≠ "None".data := by
      intro hs; rw [hs] at h; exact absurd h (by decide)
    have h4 : strip v ≠ "None,".data := by
      intro hs; rw [hs] at h; exact absurd h (by decide)
    have h5 : lower (strip v) ≠ "true".data := by
      rw [h]; decide
    simp [safe_clean_value, h1, h2, h3, h4, h5, h]
  · intro h
    by_cases hv : v = []
    · simp [safe_clean_value, hv]
    · rcases h with h | h | h | h
      · exact absurd h hv
      all_goals simp [safe_clean_value, hv, h]
  · intro h1 h2 h3 h4 h5 h6
    simp [safe_clean_value, h1, h2, h3, h4, h5, h6]

/-- Witness for C7 at the four representative inputs. -/
theorem c7_bool_numeric_witness :
    safe_clean_value (some "TRUE".data) .boolNumeric false = ⟨.vint 1, false⟩ ∧
    safe_clean_value (some " False ".data) .boolNumeric false = ⟨.vint 0, false⟩ ∧
    safe_clean_value (some "None".data) .boolNumeric false = ⟨.null, false⟩ ∧
    safe_clean_value (some "yes".data) .boolNumeric false = ⟨.null, true⟩ :=
  ⟨(c7_bool_numeric "TRUE".data).1 (by decide),
   (c7_bool_numeric " False ".data).2.1 (by decide),
   (c7_bool_numeric "None".data).2.2.1 (Or.inr (Or.inr (Or.inl (by decide)))),
   (c7_bool_numeric "yes".data).2.2.2 (by decide) (by decide) (by decide) (by decide)
     (by decide) (by decide)⟩

/-- C8 (counterexample to the claim as stated): with elements `[1`, `2`,
`3]`, the bracketed form `[[1,2,3]]` has its outer brackets stripped and
parses to `["[1", 2.0, "3]"]`, while the bare form `[1,2,3]` has its own
brackets stripped and parses to `[1.0, 2.0, 3.0]`. -/
theorem c8_counterexample :
    parse_list_values "[[1,2,3]]".data ≠ parse_list_values "[1,2,3]".data := by
  decide

/-- C8 (amended): bracketed and bare forms agree whenever the bare text does
not itself begin with `[` and end with `]` after trimming (otherwise the bare
form loses its own brackets); empty input yields the empty sequence.  The
per-element float/int/raw coercion is `coerceElem` in both forms. -/
theorem c8_bracket_bare_agree (s : Str)
    (h : ¬(startsWithS (strip s) "[".data = true ∧ (strip s).getLast? = some ']')) :
    parse_list_values ("[".data ++ s ++ "]".data) = parse_list_values s ∧
    parse_list_values [] = [] := by
  refine ⟨?_, rfl⟩
  have harg : "[".data ++ s ++ "]".data = '[' :: (s ++ [']']) := by simp
  rw [harg]
  have hstrip : strip ('[' :: (s ++ [']'])) = '[' :: (s ++ [']']) := strip_bracket_closed s
  have hlhs : parse_list_values ('[' :: (s ++ [']']))
      = (((splitC ',' s).map strip).filter (fun p => p ≠ [])).map coerceElem := by
    simp only [parse_list_values, hstrip]
    rw [show ('[' :: (s ++ [']'])).getLast? = some ']' from by
          rw [show '[' :: (s ++ [']']) = ('[' :: s) ++ [']'] from by simp,
            List.getLast?_concat]]
    simp [List.dropLast_concat, startsWithS, isPrefixL]
  rw [hlhs]
  by_cases hs : s = []
  · subst hs
    rfl
  · by_cases hs2 : strip s = []
    · rw [show parse_list_values s = [] from by simp [parse_list_values, hs2]]
      have hws := all_ws_of_strip_eq_nil s hs2
      have hnd : ∀ c ∈ s, (c = ',') = False := by
        intro x hx
        have hw := hws x hx
        simp only [eq_iff_iff, iff_false]
        intro he
        rw [he] at hw
        exact absurd hw (by decide)
      rw [splitC_eq_single ',' s hnd]
      simp [hs2]
    · have hcond : (startsWithS (strip s) "[".data
          && decide ((strip s).getLast? = some ']')) = false := by
        by_cases h1 : startsWithS (strip s) "[".data = true
        · by_cases h2 : (strip s).getLast? = some ']'
          · exact absurd ⟨h1, h2⟩ h
          · simp [h2]
        · simp only [Bool.not_eq_true] at h1
          simp [h1]
      have hrhs : parse_list_values s
          = (((splitC ',' (strip s)).map strip).filter (fun p => p ≠ [])).map coerceElem := by
        simp only [parse_list_values, hs, hs2]
        simp [hcond]
      rw [hrhs, map_strip_splitC_strip s]

/-- Witness for C8 on the element text ` 1, 2,3 `. -/
theorem c8_bracket_bare_agree_witness :
    parse_list_values ("[".data ++ " 1, 2,3 ".data ++ "]".data)
        = parse_list_values " 1, 2,3 ".data ∧
    parse_list_values [] = [] :=
  c8_bracket_bare_agree " 1, 2,3 ".data (by decide)

/-- C9: the severity marker is the first comma field whose text contains any
of WARNING/CRITICAL/INFO as a substring; the payload is the comma-rejoin of
the remaining fields, stripped; within the chosen field the recorded severity
follows the fixed priority WARNING, CRITICAL, INFO. -/
theorem c9_severity_substring_priority (parts : List Str) :
    (∀ sev content, findSeverity parts = some (sev, content) →
      ∃ pre p post, parts = pre ++ p :: post ∧
        (∀ q ∈ pre, ¬(containsS (strip q) "WARNING".data = true
            ∨ containsS (strip q) "CRITICAL".data = true
            ∨ containsS (strip q) "INFO".data = true)) ∧
        (containsS (strip p) "WARNING".data = true
            ∨ containsS (strip p) "CRITICAL".data = true
            ∨ containsS (strip p) "INFO".data = true) ∧
        sev = (if containsS (strip p) "WARNING".data = true then Severity.WARNING
               else if containsS (strip p) "CRITICAL".data = true then Severity.CRITICAL
               else Severity.INFO) ∧
        content = strip (joinC ',' post)) ∧
    (findSeverity parts = none →
      ∀ q ∈ parts, ¬(containsS (strip q) "WARNING".data = true
          ∨ containsS (strip q) "CRITICAL".data = true
          ∨ containsS (strip q) "INFO".data = true)) := by
  induction parts with
  | nil =>
    constructor
    · intro sev content hf
      exact absurd hf (by simp [findSeverity])
    · intro _ q hq
      exact absurd hq (by simp)
  | cons p rest ih =>
    constructor
    · intro sev content hf
      unfold findSeverity at hf
      cases hsp : sevOfPart p with
      | some sv =>
        rw [hsp] at hf
        simp only [Option.some.injEq, Prod.mk.injEq] at hf
        obtain ⟨hf1, hf2⟩ := hf
        subst hf1
        unfold sevOfPart at hsp
        by_cases h1 : containsS (strip p) "WARNING".data = true
        · rw [if_pos h1] at hsp
          simp only [Option.some.injEq] at hsp
          refine ⟨[], p, rest, by simp, by simp, Or.inl h1, ?_, hf2.symm⟩
          rw [if_pos h1, ← hsp]
        · rw [if_neg h1] at hsp
          by_cases h2 : containsS (strip p) "CRITICAL".data = true
          · rw [if_pos h2] at hsp
            simp only [Option.some.injEq] at hsp
            refine ⟨[], p, rest, by simp, by simp, Or.inr (Or.inl h2), ?_, hf2.symm⟩
            rw [if_neg h1, if_pos h2, ← hsp]
          · rw [if_neg h2] at hsp
            by_cases h3 : containsS (strip p) "INFO".data = true
            · rw [if_pos h3] at hsp
              simp only [Option.some.injEq] at hsp
              refine ⟨[], p, rest, by simp, by simp, Or.inr (Or.inr h3), ?_, hf2.symm⟩
              rw [if_neg h1, if_neg h2, ← hsp]
            · rw [if_neg h3] at hsp
              exact absurd hsp (by simp)
      | none =>
        rw [hsp] at hf
        obtain ⟨pre, q, post, hparts, hpre, hq, hsev, hcontent⟩ := ih.1 sev content hf
        refine ⟨p :: pre, q, post, by simp [hparts], ?_, hq, hsev, hcontent⟩
        intro x hx
        rcases List.mem_cons.mp hx with he | hm
        · subst he
          unfold sevOfPart at hsp
          intro hcon
          rcases hcon with h1 | h2 | h3
          · rw [if_pos h1] at hsp
            exact absurd hsp (by simp)
          · by_cases h1 : containsS (strip x) "WARNING".data = true
            · rw [if_pos h1] at hsp
              exact absurd hsp (by simp)
            · rw [if_neg h1, if_pos h2] at hsp
              exact absurd hsp (by simp)
          · by_cases h1 : containsS (strip x) "WARNING".data = true
            · rw [if_pos h1] at hsp
              exact absurd hsp (by simp)
            · by_cases h2 : containsS (strip x) "CRITICAL".data = true
              · rw [if_neg h1, if_pos h2] at hsp
                exact absurd hsp (by simp)
              · rw [if_neg h1, if_neg h2, if_pos h3] at hsp
                exact absurd hsp (by simp)
        · exact hpre x hm
    · intro hf q hq
      unfold findSeverity at hf
      cases hsp : sevOfPart p with
      | some sv =>
        rw [hsp] at hf
        exact absurd hf (by simp)
      | none =>
        rw [hsp] at hf
        rcases List.mem_cons.mp hq with he | hm
        · subst he
          unfold sevOfPart at hsp
          intro hcon
          rcases hcon with h1 | h2 | h3
          · rw [if_pos h1] at hsp
            exact absurd hsp (by simp)
          · by_cases h1 : containsS (strip q) "WARNING".data = true
            · rw [if_pos h1] at hsp
              exact absurd hsp (by simp)
            · rw [if_neg h1, if_pos h2] at hsp
              exact absurd hsp (by simp)
          · by_cases h1 : containsS (strip q) "WARNING".data = true
            · rw [if_pos h1] at hsp
              exact absurd hsp (by simp)
            · by_cases h2 : containsS (strip q) "CRITICAL".data = true
              · rw [if_neg h1, if_pos h2] at hsp
                exact absurd hsp (by simp)
              · rw [if_neg h1, if_neg h2, if_pos h3] at hsp
                exact absurd hsp (by simp)
        · exact ih.2 hf q hm

/-- Witness for C9: a `MISSION_INFO` field before the real severity field is
chosen as the marker (substring containment), the severity records as INFO,
and the following `WARNING` field lands in the payload. -/
theorem c9_severity_substring_priority_witness :
    ∃ pre p post,
      (["drone1".data, "MISSION_INFO".data, "WARNING".data, "7".data] : List Str)
          = pre ++ p :: post ∧
      (∀ q ∈ pre, ¬(containsS (strip q) "WARNING".data = true
          ∨ containsS (strip q) "CRITICAL".data = true
          ∨ containsS (strip q) "INFO".data = true)) ∧
      (containsS (strip p) "WARNING".data = true
          ∨ containsS (strip p) "CRITICAL".data = true
          ∨ containsS (strip p) "INFO".data = true) ∧
      Severity.INFO = (if containsS (strip p) "WARNING".data = true then Severity.WARNING
             else if containsS (strip p) "CRITICAL".data = true then Severity.CRITICAL
             else Severity.INFO) ∧
      "WARNING,7".data = strip (joinC ',' post) :=
  (c9_severity_substring_priority
      ["drone1".data, "MISSION_INFO".data, "WARNING".data, "7".data]).1
    Severity.INFO "WARNING,7".data (by decide)

/-- C10: a decodable CC_PARAMETER payload containing one of the four
startup-race / not-found error patterns yields an ERROR-stream candidate
(applied unless the line already contributed via its severity) and no
CC_PARAMETER record, even when the payload also splits into a key/value pair
of two or more parts. -/
theorem c10_cc_parameter_error_no_record (ts : Int) (rest : Str)
    (hpat : ccParamErrorPatterns.any
        (fun p => containsS ("CC_PARAMETER,".data ++ rest) p) = true) :
    dispatchEffect ts ("CC_PARAMETER,".data ++ rest)
      = ⟨none, some ("CC_PARAMETER,".data ++ rest)⟩ := by
  have hd : dispatchEffect ts ("CC_PARAMETER,".data ++ rest)
      = ccParameterRes ts ("CC_PARAMETER,".data ++ rest) := rfl
  rw [hd]
  have hex := List.any_eq_true.mp hpat
  simp only [ccParameterRes, hpat, Bool.not_true, Bool.and_false]
  simp only [DispatchResult.mk.injEq]
  constructor
  · split <;> simp_all
  · rfl

/-- Witness for C10: a not-found line with a two-part key/value payload
produces no CC_PARAMETER record and one ERROR candidate. -/
theorem c10_cc_parameter_error_no_record_witness :
    dispatchEffect 0 ("CC_PARAMETER,".data ++ " speed_limit not found in memory or shelve DB, 5.0".data)
      = ⟨none, some ("CC_PARAMETER,".data ++ " speed_limit not found in memory or shelve DB, 5.0".data)⟩ :=
  c10_cc_parameter_error_no_record 0
    " speed_limit not found in memory or shelve DB, 5.0".data (by decide)

/-- C6 (counterexample to the claim as stated): a decodable line whose
payload begins with `SnALogging,` and has fewer than 10 pipe fields can
still produce a record, because the containment-based MAX_SPEED_ESTI rule
earlier in the dispatch chain captures it first. -/
theorem c6_counterexample :
    startsWithS "SnALogging,a|b MAX_SPEED_ESTI Calculated max speed 7".data
        "SnALogging,".data = true ∧
    (splitC '|' (strip ("SnALogging,a|b MAX_SPEED_ESTI Calculated max speed 7".data.drop 11))).length < 10 ∧
    (dispatchEffect 0 "SnALogging,a|b MAX_SPEED_ESTI Calculated max speed 7".data).cat
      ≠ none := by
  decide

/-- C6 (amended): for a payload dispatched to the SnALogging decoder (its
text does not also match the earlier containment rules), fewer than 10
pipe-delimited fields produce no record in any category and no ERROR
candidate; and a non-header payload with exactly the expected 41 fields
whose `obstacle_sector` field is empty yields one SnA_LOGGING record whose
six expanded columns `obstacle_sector1..6` are all null. -/
theorem c6_sna_logging_amended :
    (∀ (ts : Int) (rest : Str),
      (containsS ("SnALogging,".data ++ rest) "MAX_SPEED_ESTI".data
          && containsS ("SnALogging,".data ++ rest) "Calculated max speed".data) = false →
      containsS ("SnALogging,".data ++ rest) "MAVLINK ACTIVE_MAVLINK_PORT is :".data = false →
      (splitC '|' (strip rest)).length < 10 →
      dispatchEffect ts ("SnALogging,".data ++ rest) = ⟨none, none⟩) ∧
    (∀ (ts : Int) (rest : Str) (v0 v1 v2 v3 v4 v5 v6 v7 v8 v9 v10 v11 v12 v13 v14 v15 v16 v17 v18 v19 v20 v21 v22 v23 v24 v25 v26 v27 v28 v29 v30 v31 v32 v33 v34 v35 v36 v37 v38 v39 v40 : Str),
      (containsS ("SnALogging,".data ++ rest) "MAX_SPEED_ESTI".data
          && containsS ("SnALogging,".data ++ rest) "Calculated max speed".data) = false →
      containsS ("SnALogging,".data ++ rest) "MAVLINK ACTIVE_MAVLINK_PORT is :".data = false →
      containsS ("SnALogging,".data ++ rest) "flight_mode |".data = false →
      splitC '|' (strip rest) = [v0, v1, v2, v3, v4, v5, v6, v7, v8, v9, v10, v11, v12, v13, v14, v15, v16, v17, v18, v19, v20, v21, v22, v23, v24, v25, v26, v27, v28, v29, v30, v31, v32, v33, v34, v35, v36, v37, v38, v39, v40] →
      strip v7 = [] →
      ∃ r, dispatchEffect ts ("SnALogging,".data ++ rest)
          = ⟨some (Category.SnA_LOGGING, r), none⟩ ∧
        List.lookup "obstacle_sector1" r = some Value.null ∧
        List.lookup "obstacle_sector2" r = some Value.null ∧
        List.lookup "obstacle_sector3" r = some Value.null ∧
        List.lookup "obstacle_sector4" r = some Value.null ∧
        List.lookup "obstacle_sector5" r = some Value.null ∧
        List.lookup "obstacle_sector6" r = some Value.null) := by
  constructor
  · intro ts rest hmax hport hlen
    have hd : dispatchEffect ts ("SnALogging,".data ++ rest)
        = (if (containsS ("SnALogging,".data ++ rest) "MAX_SPEED_ESTI".data
              && containsS ("SnALogging,".data ++ rest) "Calculated max speed".data) = true then
            ⟨maxSpeedRec ts ("SnALogging,".data ++ rest), none⟩
          else if containsS ("SnALogging,".data ++ rest)
              "MAVLINK ACTIVE_MAVLINK_PORT is :".data = true then
            ⟨activePortRec ts ("SnALogging,".data ++ rest), none⟩
          else ⟨snaLoggingRec ts ("SnALogging,".data ++ rest), none⟩) := rfl
    rw [hd]
    simp only [hmax, hport, Bool.false_eq_true, if_false]
    have hdrop : ("SnALogging,".data ++ rest).drop 11 = rest := rfl
    have hnone : snaLoggingRec ts ("SnALogging,".data ++ rest) = none := by
      simp only [snaLoggingRec]
      by_cases hh : containsS ("SnALogging,".data ++ rest) "flight_mode |".data = true
      · rw [if_pos hh]
      · rw [if_neg hh, if_neg ?hlt]
        case hlt =>
          rw [hdrop]
          simp only [List.length_map]
          omega
    rw [hnone]
  · intro ts rest v0 v1 v2 v3 v4 v5 v6 v7 v8 v9 v10 v11 v12 v13 v14 v15 v16 v17 v18 v19 v20 v21 v22 v23 v24 v25 v26 v27 v28 v29 v30 v31 v32 v33 v34 v35 v36 v37 v38 v39 v40 hmax hport hh hsplit hsec
    have hd : dispatchEffect ts ("SnALogging,".data ++ rest)
        = (if (containsS ("SnALogging,".data ++ rest) "MAX_SPEED_ESTI".data
              && containsS ("SnALogging,".data ++ rest) "Calculated max speed".data) = true then
            ⟨maxSpeedRec ts ("SnALogging,".data ++ rest), none⟩
          else if containsS ("SnALogging,".data ++ rest)
              "MAVLINK ACTIVE_MAVLINK_PORT is :".data = true then
            ⟨activePortRec ts ("SnALogging,".data ++ rest), none⟩
          else ⟨snaLoggingRec ts ("SnALogging,".data ++ rest), none⟩) := rfl
    rw [hd]
    simp only [hmax, hport, Bool.false_eq_true, if_false]
    have hdrop : ("SnALogging,".data ++ rest).drop 11 = rest := rfl
    have hrec : snaLoggingRec ts ("SnALogging,".data ++ rest)
        = some (Category.SnA_LOGGING, ("timestamp", Value.vint ts)
            :: snaFields snaFieldNames ((splitC '|' (strip rest)).map strip)) := by
      simp only [snaLoggingRec]
      rw [if_neg (by rw [hh]; exact Bool.false_ne_true), if_pos ?hge]
      · rfl
      case hge =>
        rw [hdrop, hsplit]
        simp
    rw [hrec, hsplit]
    refine ⟨_, rfl, ?_⟩
    simp only [snaFieldNames, List.map_cons, List.map_nil, snaFields_cons]
    refine ⟨?_, ?_, ?_, ?_, ?_, ?_⟩
    · rw [lookup_cons_ne "obstacle_sector1" "timestamp" _ _ (by decide),
          lookup_append_of_eq_none _ _ _ (snaFieldEffect_lookup_none "flight_mode" _ "obstacle_sector1" (by decide) rfl),
            lookup_append_of_eq_none _ _ _ (snaFieldEffect_lookup_none "guided_mission_state" _ "obstacle_sector1" (by decide) rfl),
            lookup_append_of_eq_none _ _ _ (snaFieldEffect_lookup_none "guided_controller_type" _ "obstacle_sector1" (by decide) rfl),
            lookup_append_of_eq_none _ _ _ (snaFieldEffect_lookup_none "obstacle_x" _ "obstacle_sector1" (by decide) rfl),
            lookup_append_of_eq_none _ _ _ (snaFieldEffect_lookup_none "obstacle_y" _ "obstacle_sector1" (by decide) rfl),
            lookup_append_of_eq_none _ _ _ (snaFieldEffect_lookup_none "obstacle_x_rot" _ "obstacle_sector1" (by decide) rfl),
            lookup_append_of_eq_none _ _ _ (snaFieldEffect_lookup_none "obstacle_y_rot" _ "obstacle_sector1" (by decide) rfl),
          hsec]
      exact lookup_append_of_eq_some "obstacle_sector1" _ _ Value.null (by decide)
    · rw [lookup_cons_ne "obstacle_sector2" "timestamp" _ _ (by decide),
          lookup_append_of_eq_none _ _ _ (snaFieldEffect_lookup_none "flight_mode" _ "obstacle_sector2" (by decide) rfl),
            lookup_append_of_eq_none _ _ _ (snaFieldEffect_lookup_none "guided_mission_state" _ "obstacle_sector2" (by decide) rfl),
            lookup_append_of_eq_none _ _ _ (snaFieldEffect_lookup_none "guided_controller_type" _ "obstacle_sector2" (by decide) rfl),
            lookup_append_of_eq_none _ _ _ (snaFieldEffect_lookup_none "obstacle_x" _ "obstacle_sector2" (by decide) rfl),
            lookup_append_of_eq_none _ _ _ (snaFieldEffect_lookup_none "obstacle_y" _ "obstacle_sector2" (by decide) rfl),
            lookup_append_of_eq_none _ _ _ (snaFieldEffect_lookup_none "obstacle_x_rot" _ "obstacle_sector2" (by decide) rfl),
            lookup_append_of_eq_none _ _ _ (snaFieldEffect_lookup_none "obstacle_y_rot" _ "obstacle_sector2" (by decide) rfl),
          hsec]
      exact lookup_append_of_eq_some "obstacle_sector2" _ _ Value.null (by decide)
    · rw [lookup_cons_ne "obstacle_sector3" "timestamp" _ _ (by decide),
          lookup_append_of_eq_none _ _ _ (snaFieldEffect_lookup_none "flight_mode" _ "obstacle_sector3" (by decide) rfl),
            lookup_append_of_eq_none _ _ _ (snaFieldEffect_lookup_none "guided_mission_state" _ "obstacle_sector3" (by decide) rfl),
            lookup_append_of_eq_none _ _ _ (snaFieldEffect_lookup_none "guided_controller_type" _ "obstacle_sector3" (by decide) rfl),
            lookup_append_of_eq_none _ _ _ (snaFieldEffect_lookup_none "obstacle_x" _ "obstacle_sector3" (by decide) rfl),
            lookup_append_of_eq_none _ _ _ (snaFieldEffect_lookup_none "obstacle_y" _ "obstacle_sector3" (by decide) rfl),
            lookup_append_of_eq_none _ _ _ (snaFieldEffect_lookup_none "obstacle_x_rot" _ "obstacle_sector3" (by decide) rfl),
            lookup_append_of_eq_none _ _ _ (snaFieldEffect_lookup_none "obstacle_y_rot" _ "obstacle_sector3" (by decide) rfl),
          hsec]
      exact lookup_append_of_eq_some "obstacle_sector3" _ _ Value.null (by decide)
    · rw [lookup_cons_ne "obstacle_sector4" "timestamp" _ _ (by decide),
          lookup_append_of_eq_none _ _ _ (snaFieldEffect_lookup_none "flight_mode" _ "obstacle_sector4" (by decide) rfl),
            lookup_append_of_eq_none _ _ _ (snaFieldEffect_lookup_none "guided_mission_state" _ "obstacle_sector4" (by decide) rfl),
            lookup_append_of_eq_none _ _ _ (snaFieldEffect_lookup_none "guided_controller_type" _ "obstacle_sector4" (by decide) rfl),
            lookup_append_of_eq_none _ _ _ (snaFieldEffect_lookup_none "obstacle_x" _ "obstacle_sector4" (by decide) rfl),
            lookup_append_of_eq_none _ _ _ (snaFieldEffect_lookup_none "obstacle_y" _ "obstacle_sector4" (by decide) rfl),
            lookup_append_of_eq_none _ _ _ (snaFieldEffect_lookup_none "obstacle_x_rot" _ "obstacle_sector4" (by decide) rfl),
            lookup_append_of_eq_none _ _ _ (snaFieldEffect_lookup_none "obstacle_y_rot" _ "obstacle_sector4" (by decide) rfl),
          hsec]
      exact lookup_append_of_eq_some "obstacle_sector4" _ _ Value.null (by decide)
    · rw [lookup_cons_ne "obstacle_sector5" "timestamp" _ _ (by decide),
          lookup_append_of_eq_none _ _ _ (snaFieldEffect_lookup_none "flight_mode" _ "obstacle_sector5" (by decide) rfl),
            lookup_append_of_eq_none _ _ _ (snaFieldEffect_lookup_none "guided_mission_state" _ "obstacle_sector5" (by decide) rfl),
            lookup_append_of_eq_none _ _ _ (snaFieldEffect_lookup_none "guided_controller_type" _ "obstacle_sector5" (by decide) rfl),
            lookup_append_of_eq_none _ _ _ (snaFieldEffect_lookup_none "obstacle_x" _ "obstacle_sector5" (by decide) rfl),
            lookup_append_of_eq_none _ _ _ (snaFieldEffect_lookup_none "obstacle_y" _ "obstacle_sector5" (by decide) rfl),
            lookup_append_of_eq_none _ _ _ (snaFieldEffect_lookup_none "obstacle_x_rot" _ "obstacle_sector5" (by decide) rfl),
            lookup_append_of_eq_none _ _ _ (snaFieldEffect_lookup_none "obstacle_y_rot" _ "obstacle_sector5" (by decide) rfl),
          hsec]
      exact lookup_append_of_eq_some "obstacle_sector5" _ _ Value.null (by decide)
    · rw [lookup_cons_ne "obstacle_sector6" "timestamp" _ _ (by decide),
          lookup_append_of_eq_none _ _ _ (snaFieldEffect_lookup_none "flight_mode" _ "obstacle_sector6" (by decide) rfl),
            lookup_append_of_eq_none _ _ _ (snaFieldEffect_lookup_none "guided_mission_state" _ "obstacle_sector6" (by decide) rfl),
            lookup_append_of_eq_none _ _ _ (snaFieldEffect_lookup_none "guided_controller_type" _ "obstacle_sector6" (by decide) rfl),
            lookup_append_of_eq_none _ _ _ (snaFieldEffect_lookup_none "obstacle_x" _ "obstacle_sector6" (by decide) rfl),
            lookup_append_of_eq_none _ _ _ (snaFieldEffect_lookup_none "obstacle_y" _ "obstacle_sector6" (by decide) rfl),
            lookup_append_of_eq_none _ _ _ (snaFieldEffect_lookup_none "obstacle_x_rot" _ "obstacle_sector6" (by decide) rfl),
            lookup_append_of_eq_none _ _ _ (snaFieldEffect_lookup_none "obstacle_y_rot" _ "obstacle_sector6" (by decide) rfl),
          hsec]
      exact lookup_append_of_eq_some "obstacle_sector6" _ _ Value.null (by decide)

/-- Witness for C6: a two-field SnALogging payload is dropped entirely, and
a 41-field payload with an empty `obstacle_sector` yields a record with six
null expanded columns. -/
theorem c6_sna_logging_amended_witness :
    dispatchEffect 0 ("SnALogging,".data ++ "a|b".data) = ⟨none, none⟩ ∧
    ∃ r, dispatchEffect 0 ("SnALogging,".data ++ "a|b|c|d|e|f|g||x8|x9|x10|x11|x12|x13|x14|x15|x16|x17|x18|x19|x20|x21|x22|x23|x24|x25|x26|x27|x28|x29|x30|x31|x32|x33|x34|x35|x36|x37|x38|x39|x40".data)
        = ⟨some (Category.SnA_LOGGING, r), none⟩ ∧
      List.lookup "obstacle_sector1" r = some Value.null ∧
      List.lookup "obstacle_sector2" r = some Value.null ∧
      List.lookup "obstacle_sector3" r = some Value.null ∧
      List.lookup "obstacle_sector4" r = some Value.null ∧
      List.lookup "obstacle_sector5" r = some Value.null ∧
      List.lookup "obstacle_sector6" r = some Value.null :=
  ⟨c6_sna_logging_amended.1 0 "a|b".data (by decide) (by decide) (by decide),
   c6_sna_logging_amended.2 0 "a|b|c|d|e|f|g||x8|x9|x10|x11|x12|x13|x14|x15|x16|x17|x18|x19|x20|x21|x22|x23|x24|x25|x26|x27|x28|x29|x30|x31|x32|x33|x34|x35|x36|x37|x38|x39|x40".data
     "a".data "b".data "c".data "d".data "e".data "f".data "g".data "".data "x8".data "x9".data "x10".data "x11".data "x12".data "x13".data "x14".data "x15".data "x16".data "x17".data "x18".data "x19".data "x20".data "x21".data "x22".data "x23".data "x24".data "x25".data "x26".data "x27".data "x28".data "x29".data "x30".data "x31".data "x32".data "x33".data "x34".data "x35".data "x36".data "x37".data "x38".data "x39".data "x40".data
     (by decide) (by decide) (by decide) (by decide) (by decide)⟩

end Clan
